import Mathlib

/-!
Verification of the KijiMusic tutorial runner (kiji_music/kiji_music.py).

The script is a linear integration-test driver: it parses command-line
flags, fetches and extracts a distribution archive, starts a cluster,
builds a command environment, runs a fixed sequence of shell commands
through an assertion harness, and optionally cleans up.

Shallow embedding conventions used throughout this file:
  - A Python function that can raise is embedded as `Except String α`;
    the error message stands for the raised exception.
  - The external process runner (the `command.Command` collaborator) is
    an oracle `Oracle : List String → Env → CommandResult` mapping the
    argv list and the environment of a spawned process to its captured
    result.  The filesystem is a list of existing paths; the external
    fetch and tar effects are parameters that only add paths.
  - Python `dict` environments are association lists with leftmost
    binding winning on lookup, so `dict(base)` followed by
    `update(overlay)` becomes `overlay ++ base`.
  - Machine integers do not overflow here; exit codes are `Int`.
-/

namespace KijiMusic

/-- Captured result of one spawned process, as exposed by the process
runner collaborator: exit code, captured stdout and stderr, and stdout
split into lines. -/
structure CommandResult where
  exit_code : Int
  output_text : String
  error_text : String
  output_lines : List String
deriving DecidableEq, Repr

/-- Decidable equality on embedded results, so that concrete runs can
be evaluated inside proofs. -/
instance exceptDecEq {ε α : Type} [DecidableEq ε] [DecidableEq α] :
    DecidableEq (Except ε α) := fun x y =>
  match x, y with
  | .ok a, .ok b =>
    if h : a = b then .isTrue (by rw [h]) else .isFalse (by simp [h])
  | .error a, .error b =>
    if h : a = b then .isTrue (by rw [h]) else .isFalse (by simp [h])
  | .ok _, .error _ => .isFalse (by simp)
  | .error _, .ok _ => .isFalse (by simp)

/-- Environment mapping passed to spawned processes, as an association
list; the leftmost binding for a key wins on lookup. -/
abbrev Env := List (String × String)

/-- Lookup in an environment, Python dict access. -/
def envLookup (e : Env) (k : String) : Option String :=
  List.lookup k e

/-- Embedding of Python `text.lower()` for the ASCII inputs the script
cares about: character-wise lower-casing. -/
def pyLower (s : String) : String :=
  ⟨s.toList.map Char.toLower⟩

/-- Embedding of Python `s.startswith(pre)`. -/
def strStartsWith (s pre : String) : Bool :=
  pre.toList.isPrefixOf s.toList

/-- Embedding of Python `s.endswith(suf)`. -/
def strEndsWith (s suf : String) : Bool :=
  suf.toList.isSuffixOf s.toList

/-- Embedding of Python `sep.join(xs)`. -/
def pyStrJoin (sep : String) (xs : List String) : String :=
  ⟨List.intercalate sep.toList (xs.map String.toList)⟩

/-- Embedding of the Python `in` operator on strings: substring
containment. -/
def pyIn (needle hay : String) : Bool :=
  decide (needle.toList <:+: hay.toList)

/-- Truth (kiji_music.py lines 112-129): parses a human truth value,
case-insensitively; `yes`/`true` parse to `True`, `no`/`false` parse to
`False`, anything else raises `Error`. -/
def Truth (text : String) : Except String Bool :=
  let lowered := pyLower text
  if lowered = "yes" ∨ lowered = "true" then
    .ok true
  else if lowered = "no" ∨ lowered = "false" then
    .ok false
  else
    .error ("Invalid truth value: " ++ text)

/-!  Regular expressions.

Every pattern the script passes to `re.match` is anchored on both sides
(`^ ... $`), so `re.match` there is a full-string match, except that a
Python `$` also matches just before one trailing newline.  The regex
body between the anchors is embedded as a small syntax tree and matched
with Brzozowski derivatives.
-/

/-- Regex body syntax: the fragment between `^` and `$` used by the
script (literal characters, the classes `\d` and `\s`, concatenation,
alternation, Kleene star). -/
inductive Regex where
  | emp
  | eps
  | chr (c : Char)
  | cls (f : Char → Bool)
  | seq (a b : Regex)
  | alt (a b : Regex)
  | star (a : Regex)

/-- One-or-more repetition, the `+` postfix of the patterns. -/
def Regex.plus (a : Regex) : Regex :=
  .seq a (.star a)

/-- Literal string regex, the concatenation of its characters. -/
def rstr (s : String) : Regex :=
  s.toList.foldr (fun c r => .seq (.chr c) r) .eps

/-- The `\d` class.  Python matches Unicode digits; the script only ever
sees ASCII digits, embedded as `Char.isDigit`. -/
def rdigit : Regex :=
  .cls Char.isDigit

/-- Python whitespace characters matched by `\s` (ASCII part). -/
def isPySpace (c : Char) : Bool :=
  c = ' ' ∨ c = '\t' ∨ c = '\n' ∨ c = '\r' ∨ c = Char.ofNat 11 ∨ c = Char.ofNat 12

/-- The `\s` class. -/
def rspace : Regex :=
  .cls isPySpace

/-- Whether a regex accepts the empty word. -/
def Regex.nullable : Regex → Bool
  | .emp => false
  | .eps => true
  | .chr _ => false
  | .cls _ => false
  | .seq a b => a.nullable && b.nullable
  | .alt a b => a.nullable || b.nullable
  | .star _ => true

/-- Brzozowski derivative of a regex by one character. -/
def Regex.deriv : Regex → Char → Regex
  | .emp, _ => .emp
  | .eps, _ => .emp
  | .chr d, c => if d = c then .eps else .emp
  | .cls f, c => if f c then .eps else .emp
  | .seq a b, c =>
      if a.nullable then .alt (.seq (a.deriv c) b) (b.deriv c)
      else .seq (a.deriv c) b
  | .alt a b, c => .alt (a.deriv c) (b.deriv c)
  | .star a, c => .seq (a.deriv c) (.star a)

/-- Full-word matching by iterated derivatives. -/
def matchesFull (r : Regex) (cs : List Char) : Bool :=
  (cs.foldl Regex.deriv r).nullable

/-- Embedding of `re.match` for the fully anchored patterns
`^body$` the script uses: the whole string matches the body, or the
string ends in a newline and everything before it matches (the Python
`$` rule). -/
def pyReMatch (body : Regex) (s : String) : Bool :=
  matchesFull body s.toList ||
    (s.toList.getLast? = some '\n' && matchesFull body s.toList.dropLast)

/-- Expect (kiji_music.py lines 486-497): raises `AssertionError` when
the actual value differs from the expected one. -/
def Expect {α : Type} [DecidableEq α] (expect actual : α) : Except String Unit :=
  if expect = actual then .ok ()
  else .error "AssertionError: Expected value does not match actual value"

/-- ExpectRegexMatch (kiji_music.py lines 502-515): returns `True` when
the text matches the regular expression, raises `AssertionError`
otherwise.  The pattern argument is the body of the anchored pattern
`^body$`. -/
def ExpectRegexMatch (expect : Regex) (actual : String) : Except String Bool :=
  if pyReMatch expect actual then .ok true
  else .error "AssertionError: text does not match regex"

/-- Embedding of a Python `assert cond` statement. -/
def assertB (b : Bool) : Except String Unit :=
  if b then .ok () else .error "AssertionError"

/-!  The command strings of the tutorial phases, exactly as the Python
string literals evaluate (triple-quoted strings keep their newlines and
indentation; a backslash before a newline joins the lines). -/

/-- Part1 install command (line 292). -/
def installCmd : String :=
  "kiji install --kiji=${KIJI}"

/-- Part1 create-table command (lines 298-302). -/
def createTableCmd : String :=
  "\n        kiji-schema-shell             --kiji=${KIJI}             --file=${MUSIC_HOME}/music_schema.ddl\n    "

/-- Part1 data-generation command (lines 307-311). -/
def generateDataCmd : String :=
  "\n        rm -f $MUSIC_HOME/example_data/*\n        ${MUSIC_HOME}/bin/data_generator.py             --output-dir=${MUSIC_HOME}/example_data/\n    "

/-- Part1 mkdir command (line 316). -/
def mkdirCmd : String :=
  "hadoop fs -mkdir ${HDFS_BASE}/kiji-mr-tutorial/"

/-- Part1 copy command (lines 319-323). -/
def copyJsonCmd : String :=
  "\n    hadoop fs -copyFromLocal         ${MUSIC_HOME}/example_data/*.json         ${HDFS_BASE}/kiji-mr-tutorial/\n    "

/-- Part1 list-tables command (line 328). -/
def listTablesCmd : String :=
  "kiji ls ${KIJI}"

/-- Part2 first bulk-import command (lines 347-356). -/
def bulkImportSongsCmd : String :=
  "\n    kiji bulk-import         --importer=org.kiji.examples.music.bulkimport.SongMetadataBulkImporter         --lib=${LIBS_DIR}         --input=\"format=text                  file=${HDFS_BASE}/kiji-mr-tutorial/song-metadata.json\"         --output=\"format=kiji                   table=${KIJI}/songs                   nsplits=1\"\n    "

/-- Part2 scan of the songs table (line 364). -/
def scanSongsCmd : String :=
  "kiji scan ${KIJI}/songs --max-rows=3"

/-- Part2 descriptor copy command (lines 370-374). -/
def copyDescriptorCmd : String :=
  "\n    hadoop fs -copyFromLocal       ${MUSIC_HOME}/import/song-plays-import-descriptor.json       ${HDFS_BASE}/kiji-mr-tutorial/\n    "

/-- Part2 second bulk-import command (lines 379-390). -/
def bulkImportPlaysCmd : String :=
  "\n    kiji bulk-import       -Dkiji.import.text.input.descriptor.path=${HDFS_BASE}/kiji-mr-tutorial/song-plays-import-descriptor.json       --importer=org.kiji.mapreduce.lib.bulkimport.JSONBulkImporter       --input=\"format=text                file=${HDFS_BASE}/kiji-mr-tutorial/song-plays.json\"       --output=\"format=kiji                 table=${KIJI}/users                 nsplits=1\"       --lib=${LIBS_DIR}\n    "

/-- Part2 scan of the users table (line 398). -/
def scanUsersCmd : String :=
  "kiji scan ${KIJI}/users --max-rows=3"

/-- Part3 gather command (lines 421-430), writing to
${HDFS_BASE}/output.txt_file. -/
def part3GatherCmd : String :=
  "\n    kiji gather         --gatherer=org.kiji.examples.music.gather.SongPlayCounter         --reducer=org.kiji.mapreduce.lib.reduce.LongSumReducer         --input=\"format=kiji table=${KIJI}/users\"         --output=\"format=text                   file=${HDFS_BASE}/output.txt_file                   nsplits=2\"         --lib=${LIBS_DIR}\n    "

/-- Part3 output-inspection command (lines 435-437). -/
def part3FsTextCmd : String :=
  "\n        hadoop fs -text ${HDFS_BASE}/output.txt_file/part-r-00000 | head -3\n    "

/-- Part4 gather command (lines 452-461), writing to
${HDFS_BASE}/output.sequentialPlayCount. -/
def part4GatherCmd : String :=
  "\n    kiji gather         --gatherer=org.kiji.examples.music.gather.SequentialPlayCounter         --reducer=org.kiji.examples.music.reduce.SequentialPlayCountReducer         --input=\"format=kiji table=${KIJI}/users\"         --output=\"format=avrokv                   file=${HDFS_BASE}/output.sequentialPlayCount                   nsplits=2\"         --lib=${LIBS_DIR}\n    "

/-- Part4 output-inspection command (lines 466-468). -/
def part4FsTextCmd : String :=
  "\n        hadoop fs -text ${HDFS_BASE}/output.txt_file/part-r-00000 | head -3\n    "

/-!  The process runner. -/

/-- The argv list KijiCommand (lines 135-152) builds around a tutorial
command string: a bash invocation that sources the kiji environment and
then runs the command. -/
def kijiArgs (cmd : String) : List String :=
  ["/bin/bash", "-c", "source ./bin/kiji-env.sh > /dev/null 2>&1 && " ++ cmd]

/-- The external world of spawned processes: what result the underlying
`command.Command` collaborator captures for a given argv list and
environment. -/
abbrev Oracle := List String → Env → CommandResult

/-- Tutorial.Command (lines 261-279): wraps the command string into a
KijiCommand run with the tutorial environment, logs, and returns the
result unconditionally: it never raises on a non-zero exit code. -/
def TutorialCommand (o : Oracle) (env : Env) (cmd : String) :
    Except String CommandResult :=
  .ok (o (kijiArgs cmd) env)

/-!  The anchored regex patterns of the script. -/

/-- An ASCII apostrophe, kept out of string literals. -/
def quoteChar : Char :=
  Char.ofNat 39

/-- Body of the Part2 pattern matching an entity-id header line. -/
def entityPat : Regex :=
  .seq (rstr "entity-id=[") (.seq (.chr quoteChar) (.seq (rstr "user-")
    (.seq (Regex.plus rdigit) (.seq (.chr quoteChar) (.seq (rstr "] [")
      (.seq (Regex.plus rdigit) (rstr "] info:track_plays")))))))

/-- Body of the Part2 pattern matching an indented song line. -/
def songIndentPat : Regex :=
  .seq (.star rspace) (.seq (rstr "song-") (Regex.plus rdigit))

/-- Body of the Part2 pattern matching an empty line. -/
def emptyPat : Regex :=
  .eps

/-- Body of the Part3/Part4 pattern matching a play-count line:
song id, a tab, a count. -/
def songLinePat : Regex :=
  .seq (rstr "song-") (.seq (Regex.plus rdigit) (.seq (.chr '\t')
    (Regex.plus rdigit)))

/-!  The tutorial phases.  Each phase receives the environment built by
Setup and the process oracle, issues its commands through
`TutorialCommand`, and runs the assertions of the source in order.
A failing assertion stops the phase with an error. -/

/-- Part1 (lines 284-333): install, create tables, generate data, copy
it into HDFS, list tables. -/
def Part1 (env : Env) (o : Oracle) : Except String Unit := do
  let install ← TutorialCommand o env installCmd
  assertB (install.exit_code = 0)
  assertB (pyIn "Successfully created kiji instance: " install.output_text)
  let create_table ← TutorialCommand o env createTableCmd
  assertB (create_table.exit_code = 0)
  let generate_data ← TutorialCommand o env generateDataCmd
  assertB (generate_data.exit_code = 0)
  let mkdir ← TutorialCommand o env mkdirCmd
  assertB (mkdir.exit_code = 0)
  let copy ← TutorialCommand o env copyJsonCmd
  assertB (copy.exit_code = 0)
  let list_tables ← TutorialCommand o env listTablesCmd
  assertB (list_tables.exit_code = 0)
  assertB (pyIn "songs" list_tables.output_text)
  assertB (pyIn "users" list_tables.output_text)

/-- Part2 (lines 339-411): two bulk-imports and two table scans, with
regex checks on three rows of the users scan.  Out-of-range line
indexing is embedded with a default of "" (in Python it would raise
and likewise abort; the length assertion precedes the indexed
accesses). -/
def Part2 (env : Env) (o : Oracle) : Except String Unit := do
  let bulk_import ← TutorialCommand o env bulkImportSongsCmd
  assertB (bulk_import.exit_code = 0)
  assertB (pyIn "Total input paths to process : 1" bulk_import.error_text)
  assertB (pyIn "BULKIMPORTER_RECORDS_PROCESSED=50" bulk_import.error_text)
  let list_rows ← TutorialCommand o env scanSongsCmd
  assertB (list_rows.exit_code = 0)
  let copy ← TutorialCommand o env copyDescriptorCmd
  assertB (copy.exit_code = 0)
  let bulk_import2 ← TutorialCommand o env bulkImportPlaysCmd
  assertB (bulk_import2.exit_code = 0)
  assertB (pyIn "Total input paths to process : 1" bulk_import2.error_text)
  assertB (pyIn "BULKIMPORTER_RECORDS_PROCESSED=" bulk_import2.error_text)
  let list_rows2 ← TutorialCommand o env scanUsersCmd
  assertB (list_rows2.exit_code = 0)
  assertB (strStartsWith (list_rows2.output_lines.getD 0 "") "Scanning kiji table: kiji://")
  assertB (decide (list_rows2.output_lines.length ≥ 3 * 3 + 1))
  let _ ← ExpectRegexMatch entityPat (list_rows2.output_lines.getD 1 "")
  let _ ← ExpectRegexMatch songIndentPat (list_rows2.output_lines.getD 2 "")
  let _ ← ExpectRegexMatch emptyPat (list_rows2.output_lines.getD 3 "")
  let _ ← ExpectRegexMatch entityPat (list_rows2.output_lines.getD 4 "")
  let _ ← ExpectRegexMatch songIndentPat (list_rows2.output_lines.getD 5 "")
  let _ ← ExpectRegexMatch emptyPat (list_rows2.output_lines.getD 6 "")
  let _ ← ExpectRegexMatch entityPat (list_rows2.output_lines.getD 7 "")
  let _ ← ExpectRegexMatch songIndentPat (list_rows2.output_lines.getD 8 "")
  let _ ← ExpectRegexMatch emptyPat (list_rows2.output_lines.getD 9 "")
  pure ()

/-- Runs ExpectRegexMatch over each line in turn, the `for line in
lines` loops of Part3 and Part4. -/
def ExpectAllMatch (pat : Regex) : List String → Except String Unit
  | [] => .ok ()
  | l :: ls => do
    let _ ← ExpectRegexMatch pat l
    ExpectAllMatch pat ls

/-- Embedding of `filter(None, lines)` on strings: drops empty lines. -/
def pyFilterLines (lines : List String) : List String :=
  lines.filter (fun l => !(l = ""))

/-- Part3 (lines 416-442): play-count gather job, then inspection of
the first three lines of its text output. -/
def Part3 (env : Env) (o : Oracle) : Except String Unit := do
  let gather ← TutorialCommand o env part3GatherCmd
  assertB (gather.exit_code = 0)
  let fs_text ← TutorialCommand o env part3FsTextCmd
  Expect (0 : Int) fs_text.exit_code
  let lines := pyFilterLines fs_text.output_lines
  Expect (3 : Nat) lines.length
  ExpectAllMatch songLinePat lines

/-- Part4 (lines 447-473): sequential play-count gather job, then the
same inspection commands and assertions as Part3, reading the Part3
output path. -/
def Part4 (env : Env) (o : Oracle) : Except String Unit := do
  let gather ← TutorialCommand o env part4GatherCmd
  assertB (gather.exit_code = 0)
  let fs_text ← TutorialCommand o env part4FsTextCmd
  Expect (0 : Int) fs_text.exit_code
  let lines := pyFilterLines fs_text.output_lines
  Expect (3 : Nat) lines.length
  ExpectAllMatch songLinePat lines

/-!  World model: filesystem, ambient environment, and external
effects.  The fetch and tar collaborators only create files, so they
are modelled as lists of paths they add. -/

/-- Names of the tutorial phases, for run traces. -/
inductive Phase where
  | setup
  | part1
  | part2
  | part3
  | part4
  | cleanup
deriving DecidableEq, Repr

/-- Observable effects of a run. -/
inductive Event where
  | phase (p : Phase)
  | fetch
  | mkdirs (p : String)
  | extract (archive dir : String) (strip : Nat)
  | bentoStart
  | bentoStop
  | rmtree (p : String)
  | cmd (c : String) (e : Env)
  | print (s : String)
deriving DecidableEq, Repr

/-- The ambient world: existing filesystem paths, the process
environment, the current directory and the current time in ms (the run
identifier NowMS produces). -/
structure World where
  fs : List String
  environ : List (String × String)
  cwd : String
  now : Nat
deriving DecidableEq, Repr

/-- Embedding of `os.path.exists`. -/
def pathExists (w : World) (p : String) : Bool :=
  decide (p ∈ w.fs)

/-- Embedding of two-argument `os.path.join` for the relative second
components the script uses. -/
def pyJoin (a b : String) : String :=
  if strStartsWith b "/" then b
  else if a = "" ∨ strEndsWith a "/" then a ++ b
  else a ++ "/" ++ b

/-- Embedding of `os.path.abspath` relative to a current directory. -/
def abspath (cwd p : String) : String :=
  if strStartsWith p "/" then p else pyJoin cwd p

/-- Adds one freshly created path to the filesystem. -/
def addPath (w : World) (p : String) : World :=
  { w with fs := p :: w.fs }

/-- ExtractArchive (lines 158-172): asserts that the archive and the
working directory exist, then extracts via `/bin/tar`.  The tar effect
is opaque: it adds the `extractAdds` paths; its exit status is not
checked by the source. -/
def ExtractArchive (w : World) (archive work_dir : String) (strip : Nat)
    (extractAdds : List String) : Except String (World × List Event) :=
  if pathExists w archive then
    if pathExists w work_dir then
      .ok ({ w with fs := extractAdds ++ w.fs },
           [Event.extract archive work_dir strip])
    else .error "AssertionError: working directory does not exist"
  else .error "AssertionError: archive does not exist"

/-- State of the tutorial runner after construction (lines 181-197). -/
structure Tutorial where
  work_dir : String
  run_id : Nat
  kiji_version : String

/-- Path of the cached release archive in the working directory. -/
def archiveOf (t : Tutorial) : String :=
  pyJoin t.work_dir ("kiji-bento-" ++ t.kiji_version ++ "-release.tar.gz")

/-- Path of the extracted KijiBento root directory. -/
def kijiBentoDirOf (t : Tutorial) : String :=
  pyJoin t.work_dir ("kiji-bento-" ++ t.kiji_version)

/-- Path of the BentoCluster directory inside the distribution. -/
def bentoClusterDirOf (t : Tutorial) : String :=
  pyJoin (kijiBentoDirOf t) "cluster"

/-- Path of the KijiMusic example directory inside the distribution. -/
def kijiMusicDirOf (t : Tutorial) : String :=
  pyJoin (pyJoin (kijiBentoDirOf t) "examples") "music"

/-- Path of the KijiMusic library directory. -/
def libDirOf (t : Tutorial) : String :=
  pyJoin (kijiMusicDirOf t) "lib"

/-- The HDFS base prefix derived from the run identifier. -/
def hdfsBaseOf (t : Tutorial) : String :=
  "kiji-music-" ++ toString t.run_id

/-- The Kiji instance URI derived from the run identifier. -/
def kijiUriOf (t : Tutorial) : String :=
  "kiji://.env/kiji_music_" ++ toString t.run_id

/-- The five tutorial-specific environment entries Setup overlays. -/
def setupOverlay (t : Tutorial) (globFn : String → List String) : Env :=
  [("MUSIC_HOME", kijiMusicDirOf t),
   ("LIBS_DIR", libDirOf t),
   ("KIJI", kijiUriOf t),
   ("KIJI_CLASSPATH", pyStrJoin ":" (globFn (pyJoin (libDirOf t) "*"))),
   ("HDFS_BASE", hdfsBaseOf t)]

/-- What Setup leaves behind for the phases: the composed command
environment and the updated world. -/
structure SetupOut where
  env : Env
  world : World
deriving DecidableEq, Repr

/-- The fetch half of Setup (lines 206-220): when the cached archive
is absent, the Maven fetch collaborator downloads it into the working
directory; `fetchAdds` are the paths it creates. -/
def setupFetchStep (t : Tutorial) (w : World) (fetchAdds : List String) :
    World × List Event :=
  if pathExists w (archiveOf t) then (w, ([] : List Event))
  else ({ w with fs := fetchAdds ++ w.fs }, [Event.fetch])

/-- The extraction half of Setup (lines 222-229): when the distribution
directory does not exist, create it and extract the archive into it,
stripping one leading path component. -/
def setupExtractStep (t : Tutorial) (w1 : World) (extractAdds : List String) :
    Except String World × List Event :=
  if pathExists w1 (kijiBentoDirOf t) then
    (Except.ok w1, ([] : List Event))
  else
    let w2 := addPath w1 (kijiBentoDirOf t)
    match ExtractArchive w2 (archiveOf t) (kijiBentoDirOf t) 1 extractAdds with
    | .error e => (.error e, [Event.mkdirs (kijiBentoDirOf t)])
    | .ok (w3, evx) => (.ok w3, Event.mkdirs (kijiBentoDirOf t) :: evx)

/-- The tail of Setup (lines 230-259): the directory assertions, the
cluster start and the environment composition. -/
def setupAssertStep (t : Tutorial) (globFn : String → List String)
    (w3 : World) : List Event × Except String SetupOut :=
  if pathExists w3 (kijiBentoDirOf t) then
    if pathExists w3 (bentoClusterDirOf t) then
      if pathExists w3 (kijiMusicDirOf t) then
        ([Event.bentoStart],
         .ok { env := setupOverlay t globFn ++ w3.environ, world := w3 })
      else ([], .error "AssertionError: KijiMusic root directory not found")
    else ([], .error "AssertionError: BentoCluster root directory not found")
  else ([], .error "AssertionError: KijiBento root directory not found")

/-- Tutorial.Setup (lines 199-259): fetch the archive if absent,
create and extract the distribution directory if absent, assert the
expected directories, start the Bento cluster, and compose the command
environment by overlaying the tutorial keys on the ambient process
environment.  `globFn` is the directory-listing oracle behind
`glob.glob`; `fetchAdds` and `extractAdds` are the paths the fetch and
tar collaborators create. -/
def Setup (t : Tutorial) (w : World) (fetchAdds extractAdds : List String)
    (globFn : String → List String) : List Event × Except String SetupOut :=
  let (w1, ev1) := setupFetchStep t w fetchAdds
  let (r2, ev2) := setupExtractStep t w1 extractAdds
  match r2 with
  | .error e => (ev1 ++ ev2, .error e)
  | .ok w3 =>
    let (ev3, r3) := setupAssertStep t globFn w3
    (ev1 ++ ev2 ++ ev3, r3)

/-- Whether an event is one of the effects Setup can emit. -/
def isSetupEvent : Event → Bool
  | .fetch => true
  | .mkdirs _ => true
  | .extract _ _ _ => true
  | .bentoStart => true
  | _ => false

/-- Whether a path is the given root or lies underneath it. -/
def pathUnder (root p : String) : Bool :=
  p = root || strStartsWith p (root ++ "/")

/-- Tutorial.Cleanup (lines 478-480): stops the Bento cluster and
removes the working directory tree. -/
def Cleanup (t : Tutorial) (w : World) : World × List Event :=
  ({ w with fs := w.fs.filter (fun p => !(pathUnder t.work_dir p)) },
   [Event.bentoStop, Event.rmtree t.work_dir])

/-- Commands Part1 issues, in order. -/
def part1Cmds : List String :=
  [installCmd, createTableCmd, generateDataCmd, mkdirCmd, copyJsonCmd,
   listTablesCmd]

/-- Commands Part2 issues, in order. -/
def part2Cmds : List String :=
  [bulkImportSongsCmd, scanSongsCmd, copyDescriptorCmd, bulkImportPlaysCmd,
   scanUsersCmd]

/-- Commands Part3 issues, in order. -/
def part3Cmds : List String :=
  [part3GatherCmd, part3FsTextCmd]

/-- Commands Part4 issues, in order. -/
def part4Cmds : List String :=
  [part4GatherCmd, part4FsTextCmd]

/-- All command strings of the run, in order. -/
def allCmds : List String :=
  part1Cmds ++ part2Cmds ++ part3Cmds ++ part4Cmds

/-- Command events recording that each command string was spawned with
the given environment. -/
def cmdEvents (env : Env) (cmds : List String) : List Event :=
  cmds.map (fun c => Event.cmd c env)

/-- The tutorial run from Main (lines 580-586): Setup, then Part1 to
Part4 in order, each only after the previous completed without error,
then Cleanup unless it is disabled.  The trace records phases entered,
setup effects, commands issued by completed phases, and cleanup
effects. -/
def runTutorial (t : Tutorial) (w : World) (fetchAdds extractAdds : List String)
    (globFn : String → List String) (o : Oracle) (disable_cleanup : Bool) :
    List Event × Except String World :=
  let (evS, rS) := Setup t w fetchAdds extractAdds globFn
  let tr0 := Event.phase Phase.setup :: evS
  match rS with
  | .error e => (tr0, .error e)
  | .ok so =>
    match Part1 so.env o with
    | .error e => (tr0 ++ [Event.phase Phase.part1], .error e)
    | .ok _ =>
      let tr1 := tr0 ++ Event.phase Phase.part1 :: cmdEvents so.env part1Cmds
      match Part2 so.env o with
      | .error e => (tr1 ++ [Event.phase Phase.part2], .error e)
      | .ok _ =>
        let tr2 := tr1 ++ Event.phase Phase.part2 :: cmdEvents so.env part2Cmds
        match Part3 so.env o with
        | .error e => (tr2 ++ [Event.phase Phase.part3], .error e)
        | .ok _ =>
          let tr3 := tr2 ++ Event.phase Phase.part3 :: cmdEvents so.env part3Cmds
          match Part4 so.env o with
          | .error e => (tr3 ++ [Event.phase Phase.part4], .error e)
          | .ok _ =>
            let tr4 := tr3 ++ Event.phase Phase.part4 :: cmdEvents so.env part4Cmds
            if disable_cleanup then (tr4, .ok so.world)
            else
              let cl := Cleanup t so.world
              (tr4 ++ Event.phase Phase.cleanup :: cl.2, .ok cl.1)

/-!  Command-line flags and Main. -/

/-- The parsed flags of BuildFlagParser (lines 47-109), with their
argparse defaults. -/
structure ParsedFlags where
  work_dir : Option String
  maven_local_repo : Option String
  maven_remote_repo : Option String
  kiji_bento_version : Option String
  disable_cleanup_after_test : String
  log_dir : Option String
  log_level : String
deriving DecidableEq, Repr

/-- Flag values before parsing: argparse defaults. -/
def initFlags : ParsedFlags :=
  { work_dir := none, maven_local_repo := none, maven_remote_repo := none,
    kiji_bento_version := none, disable_cleanup_after_test := "false",
    log_dir := none, log_level := "INFO" }

/-- Stores a value into a known flag; `none` when the name is not a
declared flag. -/
def setFlag (f : ParsedFlags) (name val : String) : Option ParsedFlags :=
  if name = "work_dir" then some { f with work_dir := some val }
  else if name = "maven_local_repo" then some { f with maven_local_repo := some val }
  else if name = "maven_remote_repo" then some { f with maven_remote_repo := some val }
  else if name = "kiji_bento_version" then some { f with kiji_bento_version := some val }
  else if name = "disable_cleanup_after_test" then
    some { f with disable_cleanup_after_test := val }
  else if name = "log_dir" then some { f with log_dir := some val }
  else if name = "log_level" then some { f with log_level := val }
  else none

/-- Splits a list of characters at each occurrence of a separator. -/
def splitOnChar (sep : Char) : List Char → List (List Char)
  | [] => [[]]
  | c :: cs =>
    let r := splitOnChar sep cs
    if c = sep then [] :: r
    else
      match r with
      | [] => [[c]]
      | g :: gs => (c :: g) :: gs

/-- Splits a `--name=value` or `--name` token; `none` when the token is
not an option token. -/
def flagToken (tok : String) : Option (String × Option String) :=
  match tok.toList with
  | '-' :: '-' :: rest =>
    match splitOnChar '=' rest with
    | [] => some (⟨rest⟩, none)
    | [n] => some (⟨n⟩, none)
    | n :: vs => some (⟨n⟩, some ⟨List.intercalate ['='] vs⟩)
  | _ => none

/-- Embedding of `parser.parse_known_args` (line 525) for the declared
flags: known options are consumed (with the value from `=`, from the
next token, or, for the optional-argument cleanup flag, the constant
"true"); unknown tokens are collected as unparsed.  A known
value-taking option with no value raises the argparse usage error. -/
def parseKnownArgs : List String → ParsedFlags → List String →
    Except String (ParsedFlags × List String)
  | [], f, unparsed => .ok (f, unparsed.reverse)
  | [tok], f, unparsed =>
    match flagToken tok with
    | none => parseKnownArgs [] f (tok :: unparsed)
    | some (name, some v) =>
      match setFlag f name v with
      | some f2 => parseKnownArgs [] f2 unparsed
      | none => parseKnownArgs [] f (tok :: unparsed)
    | some (name, none) =>
      if name = "disable_cleanup_after_test" then
        parseKnownArgs []
          { f with disable_cleanup_after_test := "true" } unparsed
      else
        match setFlag f name "" with
        | none => parseKnownArgs [] f (tok :: unparsed)
        | some _ => .error ("argument --" ++ name ++ ": expected one argument")
  | tok :: v :: rest2, f, unparsed =>
    match flagToken tok with
    | none => parseKnownArgs (v :: rest2) f (tok :: unparsed)
    | some (name, some w) =>
      match setFlag f name w with
      | some f2 => parseKnownArgs (v :: rest2) f2 unparsed
      | none => parseKnownArgs (v :: rest2) f (tok :: unparsed)
    | some (name, none) =>
      if name = "disable_cleanup_after_test" then
        if strStartsWith v "-" then
          parseKnownArgs (v :: rest2)
            { f with disable_cleanup_after_test := "true" } unparsed
        else
          parseKnownArgs rest2
            { f with disable_cleanup_after_test := v } unparsed
      else
        match setFlag f name "" with
        | none => parseKnownArgs (v :: rest2) f (tok :: unparsed)
        | some _ =>
          if strStartsWith v "-" then
            .error ("argument --" ++ name ++ ": expected one argument")
          else
            match setFlag f name v with
            | some f2 => parseKnownArgs rest2 f2 unparsed
            | none => parseKnownArgs (v :: rest2) f (tok :: unparsed)

/-- Embedding of Python `int(text)` on decimal strings: surrounding
whitespace is ignored, one optional sign, then decimal digits. -/
def pyInt (s : String) : Except String Int :=
  let t := (s.toList.dropWhile isPySpace).reverse.dropWhile isPySpace |>.reverse
  let (neg, ds) :=
    match t with
    | '-' :: more => (true, more)
    | '+' :: more => (false, more)
    | _ => (false, t)
  if ds ≠ [] ∧ ds.all Char.isDigit then
    let n : Nat := ds.foldl (fun a c => a * 10 + (c.toNat - 48)) 0
    .ok (if neg then -(n : Int) else (n : Int))
  else .error ("invalid literal for int: " ++ s)

/-- The integer-valued level names of the `logging` module dictionary. -/
def loggingIntLevels : List (String × Int) :=
  [("CRITICAL", 50), ("FATAL", 50), ("ERROR", 40), ("WARN", 30),
   ("WARNING", 30), ("INFO", 20), ("DEBUG", 10), ("NOTSET", 0)]

/-- Log-level resolution of Main (lines 535-543): a level name from the
logging module, else `int(text)`.  An empty level string leaves the
level `None`, which `Logger.setLevel` rejects. -/
def resolveLogLevel (s : String) : Except String Int :=
  if s.length > 0 then
    match List.lookup s loggingIntLevels with
    | some n => .ok n
    | none => pyInt s
  else .error "TypeError: level None is not an integer"

/-- `os.EX_USAGE`. -/
def osEXUSAGE : Int := 64

/-- Main (lines 520-586): parse flags, bail out with EX_USAGE on an
unknown flag; parse the cleanup flag and the log level; create the
working and log directories; bail out with EX_USAGE when no version is
given; otherwise run the tutorial and clean up unless disabled.
`tmp_name` is the suffix `tempfile.mkdtemp` generates. -/
def MainRun (argv : List String) (w : World) (tmp_name : String)
    (fetchAdds extractAdds : List String) (globFn : String → List String)
    (o : Oracle) : List Event × Except String (Option Int) :=
  match parseKnownArgs (argv.drop 1) initFlags [] with
  | .error e => ([], .error e)
  | .ok (flags, unparsed) =>
    if unparsed.length > 0 then
      ([Event.print ("Unknown flag: " ++ pyStrJoin " " unparsed)],
       .ok (some osEXUSAGE))
    else
      match Truth flags.disable_cleanup_after_test with
      | .error e => ([], .error e)
      | .ok dc =>
        match resolveLogLevel flags.log_level with
        | .error e => ([], .error e)
        | .ok _ =>
          let (wd0, w1, ev1) :=
            match flags.work_dir with
            | none =>
              let p := pyJoin w.cwd ("work_dir." ++ tmp_name)
              (p, addPath w p, [Event.mkdirs p])
            | some d => (d, w, ([] : List Event))
          let work_dir := abspath w.cwd wd0
          let (w2, ev2) :=
            if pathExists w1 work_dir then (w1, ([] : List Event))
            else (addPath w1 work_dir, [Event.mkdirs work_dir])
          let log_dir := (flags.log_dir).getD work_dir
          let (w3, ev3) :=
            if pathExists w2 log_dir then (w2, ([] : List Event))
            else (addPath w2 log_dir, [Event.mkdirs log_dir])
          if (flags.kiji_bento_version).getD "" = "" then
            (ev1 ++ ev2 ++ ev3 ++
              [Event.print "Specify the version of KijiBento to test with --kiji_bento_version=..."],
             .ok (some osEXUSAGE))
          else
            let t : Tutorial :=
              { work_dir := work_dir, run_id := w.now,
                kiji_version := (flags.kiji_bento_version).getD "" }
            let run := runTutorial t w3 fetchAdds extractAdds globFn o dc
            (ev1 ++ ev2 ++ ev3 ++ run.1,
             match run.2 with
             | .error e => .error e
             | .ok _ => .ok none)

/-!  Derived trace observations. -/

/-- The phases entered during a run, in order. -/
def phaseTrace (tr : List Event) : List Phase :=
  tr.filterMap (fun e =>
    match e with
    | .phase p => some p
    | _ => none)

/-- The fixed order of the phases of a full run. -/
def phaseOrder : List Phase :=
  [Phase.setup, Phase.part1, Phase.part2, Phase.part3, Phase.part4,
   Phase.cleanup]

/-- A trace contains none of the effects of running the tutorial: no
phase is entered, no command is spawned, nothing is fetched, no cluster
is started. -/
def noTutorialWork (tr : List Event) : Prop :=
  (∀ p, Event.phase p ∉ tr) ∧ (∀ c e, Event.cmd c e ∉ tr) ∧
    Event.fetch ∉ tr ∧ Event.bentoStart ∉ tr

/-!  Concrete fixtures used to evaluate the theorems below on closed
inputs. -/

/-- An ASCII apostrophe as a one-character string. -/
def quoteStr : String :=
  ⟨[quoteChar]⟩

/-- A users-table scan line of the shape Part2 expects. -/
def entityLine : String :=
  "entity-id=[" ++ quoteStr ++ "user-1" ++ quoteStr ++ "] [100] info:track_plays"

/-- Ten users-table scan lines of the shape Part2 expects. -/
def usersScanLines : List String :=
  ["Scanning kiji table: kiji://.env/kiji_music_7/users",
   entityLine, "  song-1", "",
   entityLine, "  song-2", "",
   entityLine, "  song-3", ""]

/-- A process oracle whose answers satisfy every assertion of the four
phases. -/
def okOracle : Oracle := fun args _ =>
  if args = kijiArgs installCmd then
    { exit_code := 0,
      output_text := "Successfully created kiji instance: kiji://.env/kiji_music_7/",
      error_text := "", output_lines := [] }
  else if args = kijiArgs listTablesCmd then
    { exit_code := 0, output_text := "songs users", error_text := "",
      output_lines := [] }
  else if args = kijiArgs bulkImportSongsCmd then
    { exit_code := 0, output_text := "",
      error_text := "Total input paths to process : 1 BULKIMPORTER_RECORDS_PROCESSED=50",
      output_lines := [] }
  else if args = kijiArgs bulkImportPlaysCmd then
    { exit_code := 0, output_text := "",
      error_text := "Total input paths to process : 1 BULKIMPORTER_RECORDS_PROCESSED=41",
      output_lines := [] }
  else if args = kijiArgs scanUsersCmd then
    { exit_code := 0, output_text := "", error_text := "",
      output_lines := usersScanLines }
  else if args = kijiArgs part3FsTextCmd then
    { exit_code := 0, output_text := "", error_text := "",
      output_lines := ["song-1\t10", "song-2\t20", "song-3\t30"] }
  else
    { exit_code := 0, output_text := "", error_text := "", output_lines := [] }

/-- A process oracle under which every command fails. -/
def failOracle : Oracle := fun _ _ =>
  { exit_code := 1, output_text := "", error_text := "", output_lines := [] }

/-- A world where the distribution is already fetched and extracted. -/
def wWorld : World :=
  { fs := ["/w", "/w/kiji-bento-1.0.0-release.tar.gz", "/w/kiji-bento-1.0.0",
           "/w/kiji-bento-1.0.0/cluster", "/w/kiji-bento-1.0.0/examples/music"],
    environ := [("PATH", "/bin")], cwd := "/", now := 7 }

/-- The tutorial runner state matching `wWorld`. -/
def wTut : Tutorial :=
  { work_dir := "/w", run_id := 7, kiji_version := "1.0.0" }

/-- A directory-listing oracle with two jar files in the library
directory. -/
def wGlob : String → List String := fun _ =>
  ["/w/kiji-bento-1.0.0/examples/music/lib/a.jar",
   "/w/kiji-bento-1.0.0/examples/music/lib/b.jar"]

/-- A world where the archive is absent and nothing is extracted yet;
the fetch and tar effects used with it below supply the missing
paths. -/
def wEmptyWorld : World :=
  { fs := ["/w"], environ := [("PATH", "/bin")], cwd := "/", now := 7 }

/-- Paths created by the tar effect in the fixtures: the cluster and
example directories. -/
def wExtractAdds : List String :=
  ["/w/kiji-bento-1.0.0/cluster", "/w/kiji-bento-1.0.0/examples/music"]

/-- A world where the distribution directory exists but the cluster
directory is missing. -/
def wNoClusterWorld : World :=
  { fs := ["/w", "/w/kiji-bento-1.0.0-release.tar.gz", "/w/kiji-bento-1.0.0",
           "/w/kiji-bento-1.0.0/examples/music"],
    environ := [("PATH", "/bin")], cwd := "/", now := 7 }

/-- The world after a cleaned-up run from `wWorld`: everything under
the working directory is gone. -/
def wAfterCleanup : World :=
  { fs := [], environ := [("PATH", "/bin")], cwd := "/", now := 7 }

/-- A Main argv with a version, a working directory and the
disable-cleanup flag. -/
def mainArgs : List String :=
  ["kiji_music.py", "--kiji_bento_version=1.0.0", "--work_dir=/w",
   "--disable_cleanup_after_test"]

/-- The flags `mainArgs` parses to. -/
def mainFlags : ParsedFlags :=
  { initFlags with
      kiji_bento_version := some "1.0.0"
      work_dir := some "/w"
      disable_cleanup_after_test := "true" }

/-- The Setup result on `wWorld`. -/
def wSetupOut : SetupOut :=
  { env := setupOverlay wTut wGlob ++ wWorld.environ, world := wWorld }

/-- A world where only the working directory and the cached archive
exist. -/
def wArchiveWorld : World :=
  { fs := ["/w", "/w/kiji-bento-1.0.0-release.tar.gz"],
    environ := [("PATH", "/bin")], cwd := "/", now := 7 }

/-- A world where the cluster directory exists but the music example
directory is missing. -/
def wNoMusicWorld : World :=
  { fs := ["/w", "/w/kiji-bento-1.0.0-release.tar.gz", "/w/kiji-bento-1.0.0",
           "/w/kiji-bento-1.0.0/cluster"],
    environ := [("PATH", "/bin")], cwd := "/", now := 7 }

set_option maxRecDepth 1000000

/-!  Helper lemmas: how the embedded assertion combinators behave under
monadic sequencing. -/

/-- Sequencing after a successful command is application. -/
theorem okBind {α β : Type} (a : α) (f : α → Except String β) :
    (Except.ok a >>= f : Except String β) = f a := rfl

/-- Sequencing after a raised error keeps the error. -/
theorem errBind {α β : Type} (e : String) (f : α → Except String β) :
    (Except.error e >>= f : Except String β) = Except.error e := rfl

/-- A sequenced assert succeeds exactly when its condition holds and
the continuation succeeds. -/
theorem assertB_bind {α : Type} (b : Bool) (k : Unit → Except String α) :
    ((assertB b >>= k : Except String α).isOk = true) ↔
      (b = true ∧ (k ()).isOk = true) := by
  cases b <;>
    simp [assertB, Except.isOk, Except.toBool, Bind.bind, Except.bind]

/-- A final assert succeeds exactly when its condition holds. -/
theorem assertB_ok (b : Bool) : ((assertB b).isOk = true) ↔ b = true := by
  cases b <;> simp [assertB, Except.isOk, Except.toBool]

/-- A sequenced Expect succeeds exactly when the values agree and the
continuation succeeds. -/
theorem expect_bind {α β : Type} [DecidableEq α] (x y : α)
    (k : Unit → Except String β) :
    ((Expect x y >>= k : Except String β).isOk = true) ↔
      (x = y ∧ (k ()).isOk = true) := by
  by_cases h : x = y <;>
    simp [Expect, h, Except.isOk, Except.toBool, Bind.bind, Except.bind]

/-- A sequenced ExpectRegexMatch succeeds exactly when the text matches
and the continuation succeeds. -/
theorem erm_bind {β : Type} (p : Regex) (s : String)
    (k : Bool → Except String β) :
    ((ExpectRegexMatch p s >>= k : Except String β).isOk = true) ↔
      (pyReMatch p s = true ∧ (k true).isOk = true) := by
  by_cases h : pyReMatch p s <;>
    simp [ExpectRegexMatch, h, Except.isOk, Except.toBool, Bind.bind,
      Except.bind]

/-- A final pure result succeeds. -/
theorem pure_isOk : ((pure () : Except String Unit).isOk = true) ↔ True := by
  simp [pure, Except.pure, Except.isOk, Except.toBool]

/-- Part1 succeeds exactly when its six commands exit with code 0 and
its substring checks pass. -/
theorem part1_isOk_iff (env : Env) (o : Oracle) :
    (Part1 env o).isOk = true ↔
      ((o (kijiArgs installCmd) env).exit_code = 0 ∧
       pyIn "Successfully created kiji instance: "
         (o (kijiArgs installCmd) env).output_text = true ∧
       (o (kijiArgs createTableCmd) env).exit_code = 0 ∧
       (o (kijiArgs generateDataCmd) env).exit_code = 0 ∧
       (o (kijiArgs mkdirCmd) env).exit_code = 0 ∧
       (o (kijiArgs copyJsonCmd) env).exit_code = 0 ∧
       (o (kijiArgs listTablesCmd) env).exit_code = 0 ∧
       pyIn "songs" (o (kijiArgs listTablesCmd) env).output_text = true ∧
       pyIn "users" (o (kijiArgs listTablesCmd) env).output_text = true) := by
  simp only [Part1, TutorialCommand, okBind, assertB_bind, assertB_ok,
    decide_eq_true_eq]

/-- Part2 succeeds exactly when its five commands exit with code 0 and
its substring, line-count and regex checks pass. -/
theorem part2_isOk_iff (env : Env) (o : Oracle) :
    (Part2 env o).isOk = true ↔
      ((o (kijiArgs bulkImportSongsCmd) env).exit_code = 0 ∧
       pyIn "Total input paths to process : 1"
         (o (kijiArgs bulkImportSongsCmd) env).error_text = true ∧
       pyIn "BULKIMPORTER_RECORDS_PROCESSED=50"
         (o (kijiArgs bulkImportSongsCmd) env).error_text = true ∧
       (o (kijiArgs scanSongsCmd) env).exit_code = 0 ∧
       (o (kijiArgs copyDescriptorCmd) env).exit_code = 0 ∧
       (o (kijiArgs bulkImportPlaysCmd) env).exit_code = 0 ∧
       pyIn "Total input paths to process : 1"
         (o (kijiArgs bulkImportPlaysCmd) env).error_text = true ∧
       pyIn "BULKIMPORTER_RECORDS_PROCESSED="
         (o (kijiArgs bulkImportPlaysCmd) env).error_text = true ∧
       (o (kijiArgs scanUsersCmd) env).exit_code = 0 ∧
       strStartsWith ((o (kijiArgs scanUsersCmd) env).output_lines.getD 0 "")
         "Scanning kiji table: kiji://" = true ∧
       (o (kijiArgs scanUsersCmd) env).output_lines.length ≥ 3 * 3 + 1 ∧
       pyReMatch entityPat
         ((o (kijiArgs scanUsersCmd) env).output_lines.getD 1 "") = true ∧
       pyReMatch songIndentPat
         ((o (kijiArgs scanUsersCmd) env).output_lines.getD 2 "") = true ∧
       pyReMatch emptyPat
         ((o (kijiArgs scanUsersCmd) env).output_lines.getD 3 "") = true ∧
       pyReMatch entityPat
         ((o (kijiArgs scanUsersCmd) env).output_lines.getD 4 "") = true ∧
       pyReMatch songIndentPat
         ((o (kijiArgs scanUsersCmd) env).output_lines.getD 5 "") = true ∧
       pyReMatch emptyPat
         ((o (kijiArgs scanUsersCmd) env).output_lines.getD 6 "") = true ∧
       pyReMatch entityPat
         ((o (kijiArgs scanUsersCmd) env).output_lines.getD 7 "") = true ∧
       pyReMatch songIndentPat
         ((o (kijiArgs scanUsersCmd) env).output_lines.getD 8 "") = true ∧
       pyReMatch emptyPat
         ((o (kijiArgs scanUsersCmd) env).output_lines.getD 9 "") = true) := by
  simp only [Part2, TutorialCommand, okBind, assertB_bind, assertB_ok,
    erm_bind, pure_isOk, decide_eq_true_eq, and_true]

/-- Part3 succeeds exactly when its two commands exit with code 0,
exactly three non-empty lines are read back, and each matches the
play-count pattern. -/
theorem part3_isOk_iff (env : Env) (o : Oracle) :
    (Part3 env o).isOk = true ↔
      ((o (kijiArgs part3GatherCmd) env).exit_code = 0 ∧
       0 = (o (kijiArgs part3FsTextCmd) env).exit_code ∧
       3 = (pyFilterLines (o (kijiArgs part3FsTextCmd) env).output_lines).length ∧
       (ExpectAllMatch songLinePat
         (pyFilterLines (o (kijiArgs part3FsTextCmd) env).output_lines)).isOk
           = true) := by
  simp only [Part3, TutorialCommand, okBind, assertB_bind, expect_bind,
    decide_eq_true_eq]

/-- Part4 succeeds exactly when its two commands exit with code 0,
exactly three non-empty lines are read back from the Part3 output path,
and each matches the play-count pattern. -/
theorem part4_isOk_iff (env : Env) (o : Oracle) :
    (Part4 env o).isOk = true ↔
      ((o (kijiArgs part4GatherCmd) env).exit_code = 0 ∧
       0 = (o (kijiArgs part4FsTextCmd) env).exit_code ∧
       3 = (pyFilterLines (o (kijiArgs part4FsTextCmd) env).output_lines).length ∧
       (ExpectAllMatch songLinePat
         (pyFilterLines (o (kijiArgs part4FsTextCmd) env).output_lines)).isOk
           = true) := by
  simp only [Part4, TutorialCommand, okBind, assertB_bind, expect_bind,
    decide_eq_true_eq]

/-!  Helper lemmas about Setup. -/


theorem setupFetchStep_cases (t : Tutorial) (w : World) (fa : List String) :
    (pathExists w (archiveOf t) = true ∧ setupFetchStep t w fa = (w, [])) ∨
    (pathExists w (archiveOf t) = false ∧
      setupFetchStep t w fa = ({ w with fs := fa ++ w.fs }, [Event.fetch])) := by
  unfold setupFetchStep
  split <;> simp_all

theorem setupExtractStep_cases (t : Tutorial) (w1 : World) (ea : List String) :
    (pathExists w1 (kijiBentoDirOf t) = true ∧
      setupExtractStep t w1 ea = (.ok w1, [])) ∨
    (pathExists w1 (kijiBentoDirOf t) = false ∧
      pathExists (addPath w1 (kijiBentoDirOf t)) (archiveOf t) = true ∧
      setupExtractStep t w1 ea =
        (.ok { w1 with fs := ea ++ kijiBentoDirOf t :: w1.fs },
         [Event.mkdirs (kijiBentoDirOf t),
          Event.extract (archiveOf t) (kijiBentoDirOf t) 1])) ∨
    (pathExists w1 (kijiBentoDirOf t) = false ∧
      pathExists (addPath w1 (kijiBentoDirOf t)) (archiveOf t) = false ∧
      setupExtractStep t w1 ea =
        (.error "AssertionError: archive does not exist",
         [Event.mkdirs (kijiBentoDirOf t)])) := by
  unfold setupExtractStep ExtractArchive
  split
  · simp_all
  · dsimp only
    split
    · split_ifs at *
      all_goals simp_all [pathExists, addPath]
    · split_ifs at *
      all_goals simp_all [pathExists, addPath]

theorem setupAssertStep_cases (t : Tutorial) (g : String → List String)
    (w3 : World) :
    (pathExists w3 (kijiBentoDirOf t) = true ∧
     pathExists w3 (bentoClusterDirOf t) = true ∧
     pathExists w3 (kijiMusicDirOf t) = true ∧
     setupAssertStep t g w3 =
       ([Event.bentoStart],
        .ok { env := setupOverlay t g ++ w3.environ, world := w3 })) ∨
    ((setupAssertStep t g w3).1 = [] ∧
      ∃ e, (setupAssertStep t g w3).2 = .error e) := by
  unfold setupAssertStep
  split
  · split
    · split
      · simp_all
      · simp_all
    · simp_all
  · simp_all

theorem Setup_eq (t : Tutorial) (w : World) (fa ea : List String)
    (g : String → List String) :
    Setup t w fa ea g =
      ((setupFetchStep t w fa).2 ++
        (setupExtractStep t (setupFetchStep t w fa).1 ea).2 ++
        (match (setupExtractStep t (setupFetchStep t w fa).1 ea).1 with
         | .error _ => []
         | .ok w3 => (setupAssertStep t g w3).1),
       match (setupExtractStep t (setupFetchStep t w fa).1 ea).1 with
       | .error e => .error e
       | .ok w3 => (setupAssertStep t g w3).2) := by
  unfold Setup
  rcases h1 : setupFetchStep t w fa with ⟨w1, ev1⟩
  rcases h2 : setupExtractStep t w1 ea with ⟨r2, ev2⟩
  cases r2 <;> simp [h1, h2]

theorem fetchStep_events (t : Tutorial) (w : World) (fa : List String) :
    ((setupFetchStep t w fa).2.all isSetupEvent) = true := by
  unfold setupFetchStep
  split <;> simp [isSetupEvent]

theorem extractStep_events (t : Tutorial) (w1 : World) (ea : List String) :
    ((setupExtractStep t w1 ea).2.all isSetupEvent) = true := by
  rcases setupExtractStep_cases t w1 ea with ⟨_, h⟩ | ⟨_, _, h⟩ | ⟨_, _, h⟩ <;>
    rw [h] <;> simp [isSetupEvent]

theorem assertStep_events (t : Tutorial) (g : String → List String)
    (w3 : World) :
    ((setupAssertStep t g w3).1.all isSetupEvent) = true := by
  rcases setupAssertStep_cases t g w3 with ⟨_, _, _, h⟩ | ⟨h, _⟩
  · rw [h]
    simp [isSetupEvent]
  · rw [h]
    simp

theorem setup_events_only (t : Tutorial) (w : World) (fa ea : List String)
    (g : String → List String) :
    ((Setup t w fa ea g).1.all isSetupEvent) = true := by
  rw [Setup_eq]
  simp only [List.all_append, Bool.and_eq_true]
  refine ⟨⟨fetchStep_events t w fa, extractStep_events t _ ea⟩, ?_⟩
  cases h : (setupExtractStep t (setupFetchStep t w fa).1 ea).1
  · simp
  · exact assertStep_events t g _

theorem fetchStep_pres (t : Tutorial) (w : World) (fa : List String) :
    (setupFetchStep t w fa).1.environ = w.environ ∧
    (∀ p, p ∈ w.fs → p ∈ (setupFetchStep t w fa).1.fs) := by
  unfold setupFetchStep
  split <;> simp_all

theorem extractStep_pres (t : Tutorial) (w1 : World) (ea : List String)
    (w3 : World) (h : (setupExtractStep t w1 ea).1 = .ok w3) :
    w3.environ = w1.environ ∧ (∀ p, p ∈ w1.fs → p ∈ w3.fs) := by
  rcases setupExtractStep_cases t w1 ea with ⟨_, he⟩ | ⟨_, _, he⟩ | ⟨_, _, he⟩ <;>
    rw [he] at h
  · simp at h
    subst h
    simp
  · simp at h
    subst h
    refine ⟨rfl, fun p hp => ?_⟩
    simp [hp]
  · simp at h

theorem setup_env_of_ok (t : Tutorial) (w : World) (fa ea : List String)
    (g : String → List String) (so : SetupOut)
    (h : (Setup t w fa ea g).2 = .ok so) :
    so.env = setupOverlay t g ++ w.environ ∧
    (∀ p, p ∈ w.fs → p ∈ so.world.fs) := by
  rw [Setup_eq] at h
  cases hr : (setupExtractStep t (setupFetchStep t w fa).1 ea).1 with
  | error e =>
    rw [hr] at h
    simp at h
  | ok w3 =>
    rw [hr] at h
    dsimp only at h
    rcases setupAssertStep_cases t g w3 with ⟨_, _, _, ha⟩ | ⟨_, e, ha⟩
    · rw [ha] at h
      simp at h
      obtain ⟨hpre, hpost⟩ := extractStep_pres t _ ea w3 hr
      obtain ⟨hfe, hff⟩ := fetchStep_pres t w fa
      constructor
      · rw [← h]
        simp [hpre, hfe]
      · intro p hp
        rw [← h]
        exact hpost p (hff p hp)
    · rw [ha] at h
      simp at h

/-!  Helper lemmas about run traces. -/
theorem mem_setup_isSetupEvent (t : Tutorial) (w : World) (fa ea : List String)
    (g : String → List String) (e : Event) (he : e ∈ (Setup t w fa ea g).1) :
    isSetupEvent e = true :=
  List.all_eq_true.mp (setup_events_only t w fa ea g) e he

theorem phaseTrace_of_setup_events (l : List Event)
    (h : l.all isSetupEvent = true) : phaseTrace l = [] := by
  rw [phaseTrace, List.filterMap_eq_nil_iff]
  intro e he
  have := List.all_eq_true.mp h e he
  cases e <;> simp_all [isSetupEvent]

theorem not_mem_setup_events (l : List Event) (h : l.all isSetupEvent = true)
    (e : Event) (he : isSetupEvent e = false) : e ∉ l := by
  intro hm
  have := List.all_eq_true.mp h e hm
  rw [he] at this
  exact Bool.false_ne_true this

theorem phaseTrace_cmdEvents (env : Env) (cs : List String) :
    phaseTrace (cmdEvents env cs) = [] := by
  rw [phaseTrace, List.filterMap_eq_nil_iff]
  intro e he
  simp [cmdEvents, List.mem_map] at he
  obtain ⟨c, _, rfl⟩ := he
  rfl

theorem mem_cmdEvents (env : Env) (cs : List String) (e : Event) :
    e ∈ cmdEvents env cs ↔ ∃ c, c ∈ cs ∧ e = Event.cmd c env := by
  simp [cmdEvents, List.mem_map]
  tauto

theorem phaseTrace_append (l1 l2 : List Event) :
    phaseTrace (l1 ++ l2) = phaseTrace l1 ++ phaseTrace l2 := by
  simp [phaseTrace, List.filterMap_append]

theorem phaseTrace_cons (p : Phase) (l : List Event) :
    phaseTrace (Event.phase p :: l) = p :: phaseTrace l := by
  simp [phaseTrace]

theorem phaseTrace_nil : phaseTrace [] = [] := rfl

theorem phaseTrace_cons_stop (l : List Event) :
    phaseTrace (Event.bentoStop :: l) = phaseTrace l := by
  simp [phaseTrace]

theorem phaseTrace_cons_rmtree (p : String) (l : List Event) :
    phaseTrace (Event.rmtree p :: l) = phaseTrace l := by
  simp [phaseTrace]

/-- Shape of a full run: either some phase failed and the phase trace
stops at that phase, or the run succeeded and all phases ran, with
cleanup exactly when it is not disabled. -/
theorem run_shape (t : Tutorial) (w : World) (fa ea : List String)
    (g : String → List String) (o : Oracle) (dc : Bool) :
    ((∃ e, (runTutorial t w fa ea g o dc).2 = .error e) ∧
      phaseTrace (runTutorial t w fa ea g o dc).1 ∈
        [[Phase.setup], [Phase.setup, Phase.part1],
         [Phase.setup, Phase.part1, Phase.part2],
         [Phase.setup, Phase.part1, Phase.part2, Phase.part3],
         [Phase.setup, Phase.part1, Phase.part2, Phase.part3, Phase.part4]]) ∨
    ((∃ w2, (runTutorial t w fa ea g o dc).2 = .ok w2) ∧
      phaseTrace (runTutorial t w fa ea g o dc).1 =
        (if dc then
          [Phase.setup, Phase.part1, Phase.part2, Phase.part3, Phase.part4]
         else phaseOrder)) := by
  unfold runTutorial
  rcases hS : Setup t w fa ea g with ⟨evS, rS⟩
  have hevS : phaseTrace evS = [] := by
    have h1 := setup_events_only t w fa ea g
    rw [hS] at h1
    exact phaseTrace_of_setup_events evS h1
  cases rS with
  | error e =>
    left
    refine ⟨⟨e, rfl⟩, ?_⟩
    simp [phaseTrace_cons, hevS]
  | ok so =>
    cases hP1 : Part1 so.env o with
    | error e1 =>
      left
      simp only [hP1]
      refine ⟨⟨e1, rfl⟩, ?_⟩
      simp [phaseTrace_cons, phaseTrace_cons_stop, phaseTrace_cons_rmtree,
        phaseTrace_append, phaseTrace_cmdEvents, phaseTrace_nil, hevS, Cleanup,
        phaseOrder]
    | ok u1 =>
      simp only [hP1]
      cases hP2 : Part2 so.env o with
      | error e2 =>
        left
        simp only [hP2]
        refine ⟨⟨e2, rfl⟩, ?_⟩
        simp [phaseTrace_cons, phaseTrace_cons_stop, phaseTrace_cons_rmtree,
        phaseTrace_append, phaseTrace_cmdEvents, phaseTrace_nil, hevS, Cleanup,
        phaseOrder]
      | ok u2 =>
        simp only [hP2]
        cases hP3 : Part3 so.env o with
        | error e3 =>
          left
          simp only [hP3]
          refine ⟨⟨e3, rfl⟩, ?_⟩
          simp [phaseTrace_cons, phaseTrace_cons_stop, phaseTrace_cons_rmtree,
        phaseTrace_append, phaseTrace_cmdEvents, phaseTrace_nil, hevS, Cleanup,
        phaseOrder]
        | ok u3 =>
          simp only [hP3]
          cases hP4 : Part4 so.env o with
          | error e4 =>
            left
            simp only [hP4]
            refine ⟨⟨e4, rfl⟩, ?_⟩
            simp [phaseTrace_cons, phaseTrace_cons_stop, phaseTrace_cons_rmtree,
        phaseTrace_append, phaseTrace_cmdEvents, phaseTrace_nil, hevS, Cleanup,
        phaseOrder]
          | ok u4 =>
            simp only [hP4]
            right
            cases dc with
            | true =>
              refine ⟨⟨so.world, rfl⟩, ?_⟩
              simp [phaseTrace_cons, phaseTrace_cons_stop, phaseTrace_cons_rmtree,
        phaseTrace_append, phaseTrace_cmdEvents, phaseTrace_nil, hevS, Cleanup,
        phaseOrder]
            | false =>
              refine ⟨⟨(Cleanup t so.world).1, by simp [Cleanup]⟩, ?_⟩
              simp [phaseTrace_cons, phaseTrace_cons_stop, phaseTrace_cons_rmtree,
        phaseTrace_append, phaseTrace_cmdEvents, phaseTrace_nil, hevS, Cleanup,
        phaseOrder]



theorem run_events (t : Tutorial) (w : World) (fa ea : List String)
    (g : String → List String) (o : Oracle) (dc : Bool) (e : Event)
    (he : e ∈ (runTutorial t w fa ea g o dc).1) :
    (∃ p, e = Event.phase p) ∨ e ∈ (Setup t w fa ea g).1 ∨
    (∃ so c, (Setup t w fa ea g).2 = .ok so ∧ c ∈ allCmds ∧
      e = Event.cmd c so.env) ∨
    (dc = false ∧ (e = Event.bentoStop ∨ e = Event.rmtree t.work_dir)) := by
  unfold runTutorial at he
  rcases hS : Setup t w fa ea g with ⟨evS, rS⟩
  rw [hS] at he
  simp only [hS]
  clear hS
  cases rS with
  | error er =>
    simp at he
    rcases he with he | he
    · exact Or.inl ⟨Phase.setup, he⟩
    · exact Or.inr (Or.inl he)
  | ok so =>
    dsimp only at he
    cases hP1 : Part1 so.env o with
    | error e1 =>
      rw [hP1] at he
      simp at he
      rcases he with he | he | he
      · exact Or.inl ⟨Phase.setup, he⟩
      · exact Or.inr (Or.inl he)
      · exact Or.inl ⟨Phase.part1, he⟩
    | ok u1 =>
      rw [hP1] at he
      cases hP2 : Part2 so.env o with
      | error e2 =>
        rw [hP2] at he
        simp [mem_cmdEvents] at he
        rcases he with he | he | he | ⟨c, hc, he⟩ | he
        · exact Or.inl ⟨Phase.setup, he⟩
        · exact Or.inr (Or.inl he)
        · exact Or.inl ⟨Phase.part1, he⟩
        · exact Or.inr (Or.inr (Or.inl ⟨so, c, rfl, by simp [allCmds, hc], he⟩))
        · exact Or.inl ⟨Phase.part2, he⟩
      | ok u2 =>
        rw [hP2] at he
        cases hP3 : Part3 so.env o with
        | error e3 =>
          rw [hP3] at he
          simp [mem_cmdEvents] at he
          rcases he with he | he | he | ⟨c, hc, he⟩ | he | ⟨c, hc, he⟩ | he
          · exact Or.inl ⟨Phase.setup, he⟩
          · exact Or.inr (Or.inl he)
          · exact Or.inl ⟨Phase.part1, he⟩
          · exact Or.inr (Or.inr (Or.inl ⟨so, c, rfl, by simp [allCmds, hc], he⟩))
          · exact Or.inl ⟨Phase.part2, he⟩
          · exact Or.inr (Or.inr (Or.inl ⟨so, c, rfl, by simp [allCmds, hc], he⟩))
          · exact Or.inl ⟨Phase.part3, he⟩
        | ok u3 =>
          rw [hP3] at he
          cases hP4 : Part4 so.env o with
          | error e4 =>
            rw [hP4] at he
            simp [mem_cmdEvents] at he
            rcases he with
              he | he | he | ⟨c, hc, he⟩ | he | ⟨c, hc, he⟩ | he | ⟨c, hc, he⟩ | he
            · exact Or.inl ⟨Phase.setup, he⟩
            · exact Or.inr (Or.inl he)
            · exact Or.inl ⟨Phase.part1, he⟩
            · exact Or.inr (Or.inr (Or.inl ⟨so, c, rfl, by simp [allCmds, hc], he⟩))
            · exact Or.inl ⟨Phase.part2, he⟩
            · exact Or.inr (Or.inr (Or.inl ⟨so, c, rfl, by simp [allCmds, hc], he⟩))
            · exact Or.inl ⟨Phase.part3, he⟩
            · exact Or.inr (Or.inr (Or.inl ⟨so, c, rfl, by simp [allCmds, hc], he⟩))
            · exact Or.inl ⟨Phase.part4, he⟩
          | ok u4 =>
            rw [hP4] at he
            cases dc with
            | true =>
              simp [mem_cmdEvents] at he
              rcases he with
                he | he | he | ⟨c, hc, he⟩ | he | ⟨c, hc, he⟩ | he | ⟨c, hc, he⟩ |
                  he | ⟨c, hc, he⟩
              · exact Or.inl ⟨Phase.setup, he⟩
              · exact Or.inr (Or.inl he)
              · exact Or.inl ⟨Phase.part1, he⟩
              · exact Or.inr (Or.inr (Or.inl ⟨so, c, rfl, by simp [allCmds, hc], he⟩))
              · exact Or.inl ⟨Phase.part2, he⟩
              · exact Or.inr (Or.inr (Or.inl ⟨so, c, rfl, by simp [allCmds, hc], he⟩))
              · exact Or.inl ⟨Phase.part3, he⟩
              · exact Or.inr (Or.inr (Or.inl ⟨so, c, rfl, by simp [allCmds, hc], he⟩))
              · exact Or.inl ⟨Phase.part4, he⟩
              · exact Or.inr (Or.inr (Or.inl ⟨so, c, rfl, by simp [allCmds, hc], he⟩))
            | false =>
              simp [mem_cmdEvents, Cleanup] at he
              rcases he with
                he | he | he | ⟨c, hc, he⟩ | he | ⟨c, hc, he⟩ | he | ⟨c, hc, he⟩ |
                  he | ⟨c, hc, he⟩ | he | he | he
              · exact Or.inl ⟨Phase.setup, he⟩
              · exact Or.inr (Or.inl he)
              · exact Or.inl ⟨Phase.part1, he⟩
              · exact Or.inr (Or.inr (Or.inl ⟨so, c, rfl, by simp [allCmds, hc], he⟩))
              · exact Or.inl ⟨Phase.part2, he⟩
              · exact Or.inr (Or.inr (Or.inl ⟨so, c, rfl, by simp [allCmds, hc], he⟩))
              · exact Or.inl ⟨Phase.part3, he⟩
              · exact Or.inr (Or.inr (Or.inl ⟨so, c, rfl, by simp [allCmds, hc], he⟩))
              · exact Or.inl ⟨Phase.part4, he⟩
              · exact Or.inr (Or.inr (Or.inl ⟨so, c, rfl, by simp [allCmds, hc], he⟩))
              · exact Or.inl ⟨Phase.cleanup, he⟩
              · exact Or.inr (Or.inr (Or.inr ⟨rfl, Or.inl he⟩))
              · exact Or.inr (Or.inr (Or.inr ⟨rfl, Or.inr he⟩))

theorem run_result (t : Tutorial) (w : World) (fa ea : List String)
    (g : String → List String) (o : Oracle) (dc : Bool) (w2 : World)
    (h : (runTutorial t w fa ea g o dc).2 = .ok w2) :
    ∃ so, (Setup t w fa ea g).2 = .ok so ∧
      (dc = true → w2 = so.world) ∧
      (dc = false → w2 = (Cleanup t so.world).1) := by
  unfold runTutorial at h
  rcases hS : Setup t w fa ea g with ⟨evS, rS⟩
  rw [hS] at h
  simp only [hS]
  clear hS
  cases rS with
  | error er => simp at h
  | ok so =>
    dsimp only at h
    refine ⟨so, rfl, ?_⟩
    cases hP1 : Part1 so.env o with
    | error e1 =>
      rw [hP1] at h
      simp at h
    | ok u1 =>
      rw [hP1] at h
      cases hP2 : Part2 so.env o with
      | error e2 =>
        rw [hP2] at h
        simp at h
      | ok u2 =>
        rw [hP2] at h
        cases hP3 : Part3 so.env o with
        | error e3 =>
          rw [hP3] at h
          simp at h
        | ok u3 =>
          rw [hP3] at h
          cases hP4 : Part4 so.env o with
          | error e4 =>
            rw [hP4] at h
            simp at h
          | ok u4 =>
            rw [hP4] at h
            cases dc with
            | true =>
              simp at h
              exact ⟨fun _ => h.symm, fun hf => absurd hf (by simp)⟩
            | false =>
              simp [Cleanup] at h
              exact ⟨fun ht => absurd ht (by simp), fun _ => h.symm⟩

/-!  Claims. -/

/-- C2: Truth returns true for every string whose lower-casing is yes
or true (so also for YES and True), false for every string whose
lower-casing is no or false, and raises an error on every other
string. -/
theorem C2_Truth_parsing (s : String) :
    ((pyLower s = "yes" ∨ pyLower s = "true") → Truth s = .ok true) ∧
    ((pyLower s = "no" ∨ pyLower s = "false") → Truth s = .ok false) ∧
    (¬(pyLower s = "yes" ∨ pyLower s = "true" ∨ pyLower s = "no" ∨
        pyLower s = "false") →
      Truth s = .error ("Invalid truth value: " ++ s)) := by
  refine ⟨fun h => ?_, fun h => ?_, fun h => ?_⟩
  · simp only [Truth]
    rw [if_pos h]
  · have hne : ¬(pyLower s = "yes" ∨ pyLower s = "true") := by
      rcases h with h | h <;> rw [h] <;> decide
    simp only [Truth]
    rw [if_neg hne, if_pos h]
  · push_neg at h
    obtain ⟨h1, h2, h3, h4⟩ := h
    simp only [Truth]
    rw [if_neg (by tauto), if_neg (by tauto)]

/-- C2 witness: concrete parses, including the upper-case spellings. -/
theorem C2_Truth_parsing_witness :
    Truth "YES" = .ok true ∧ Truth "True" = .ok true ∧
    Truth "no" = .ok false ∧ Truth "FALSE" = .ok false ∧
    Truth "banana" = .error ("Invalid truth value: " ++ "banana") :=
  ⟨(C2_Truth_parsing "YES").1 (by decide),
   (C2_Truth_parsing "True").1 (by decide),
   (C2_Truth_parsing "no").2.1 (by decide),
   (C2_Truth_parsing "FALSE").2.1 (by decide),
   (C2_Truth_parsing "banana").2.2 (by decide)⟩

/-- C4: ExpectRegexMatch returns true when the text matches the
regular expression and raises AssertionError otherwise; each of the
three tab-separated play-count lines matches the pattern of Part3 and
Part4, while the colon-separated line does not. -/
theorem C4_ExpectRegexMatch_behavior (p : Regex) (s : String) :
    (pyReMatch p s = true → ExpectRegexMatch p s = .ok true) ∧
    (pyReMatch p s = false →
      ExpectRegexMatch p s = .error "AssertionError: text does not match regex") ∧
    (pyReMatch songLinePat "song-1\t10" = true ∧
     pyReMatch songLinePat "song-2\t20" = true ∧
     pyReMatch songLinePat "song-3\t30" = true ∧
     pyReMatch songLinePat "song-1:10" = false) := by
  refine ⟨fun h => ?_, fun h => ?_, by decide⟩
  · simp [ExpectRegexMatch, h]
  · simp [ExpectRegexMatch, h]

/-- C4 witness: the assertion helper evaluated on the matching and the
failing concrete lines. -/
theorem C4_ExpectRegexMatch_behavior_witness :
    ExpectRegexMatch songLinePat "song-1\t10" = .ok true ∧
    ExpectRegexMatch songLinePat "song-1:10"
      = .error "AssertionError: text does not match regex" :=
  ⟨(C4_ExpectRegexMatch_behavior songLinePat "song-1\t10").1 (by decide),
   (C4_ExpectRegexMatch_behavior songLinePat "song-1:10").2.1 (by decide)⟩

/-- C9: Tutorial.Command never raises on command failure: for every
command string it returns the result captured by the process runner,
whatever its exit code, leaving interpretation to the caller. -/
theorem C9_TutorialCommand_never_raises (o : Oracle) (env : Env)
    (cmd : String) :
    (TutorialCommand o env cmd).isOk = true ∧
    TutorialCommand o env cmd = .ok (o (kijiArgs cmd) env) :=
  ⟨rfl, rfl⟩

/-- C1: a phase completes only if every command it ran exited with
code 0 (Setup spawns no tutorial command, so the property is carried by
Part1 through Part4), and a non-zero exit code makes the phase raise an
AssertionError. -/
theorem C1_phases_require_zero_exit (env : Env) (o : Oracle) :
    ((Part1 env o).isOk = true →
      (o (kijiArgs installCmd) env).exit_code = 0 ∧
      (o (kijiArgs createTableCmd) env).exit_code = 0 ∧
      (o (kijiArgs generateDataCmd) env).exit_code = 0 ∧
      (o (kijiArgs mkdirCmd) env).exit_code = 0 ∧
      (o (kijiArgs copyJsonCmd) env).exit_code = 0 ∧
      (o (kijiArgs listTablesCmd) env).exit_code = 0) ∧
    ((Part2 env o).isOk = true →
      (o (kijiArgs bulkImportSongsCmd) env).exit_code = 0 ∧
      (o (kijiArgs scanSongsCmd) env).exit_code = 0 ∧
      (o (kijiArgs copyDescriptorCmd) env).exit_code = 0 ∧
      (o (kijiArgs bulkImportPlaysCmd) env).exit_code = 0 ∧
      (o (kijiArgs scanUsersCmd) env).exit_code = 0) ∧
    ((Part3 env o).isOk = true →
      (o (kijiArgs part3GatherCmd) env).exit_code = 0 ∧
      (o (kijiArgs part3FsTextCmd) env).exit_code = 0) ∧
    ((Part4 env o).isOk = true →
      (o (kijiArgs part4GatherCmd) env).exit_code = 0 ∧
      (o (kijiArgs part4FsTextCmd) env).exit_code = 0) ∧
    ((o (kijiArgs installCmd) env).exit_code ≠ 0 →
      Part1 env o = .error "AssertionError") ∧
    ((o (kijiArgs bulkImportSongsCmd) env).exit_code ≠ 0 →
      Part2 env o = .error "AssertionError") ∧
    ((o (kijiArgs part3GatherCmd) env).exit_code ≠ 0 →
      Part3 env o = .error "AssertionError") ∧
    ((o (kijiArgs part4GatherCmd) env).exit_code ≠ 0 →
      Part4 env o = .error "AssertionError") := by
  refine ⟨fun h => ?_, fun h => ?_, fun h => ?_, fun h => ?_,
    fun h => ?_, fun h => ?_, fun h => ?_, fun h => ?_⟩
  · rw [part1_isOk_iff] at h
    tauto
  · rw [part2_isOk_iff] at h
    tauto
  · rw [part3_isOk_iff] at h
    exact ⟨h.1, h.2.1.symm⟩
  · rw [part4_isOk_iff] at h
    exact ⟨h.1, h.2.1.symm⟩
  · simp [Part1, TutorialCommand, okBind, assertB, h, errBind]
  · simp [Part2, TutorialCommand, okBind, assertB, h, errBind]
  · simp [Part3, TutorialCommand, okBind, assertB, h, errBind]
  · simp [Part4, TutorialCommand, okBind, assertB, h, errBind]

/-- C1 witness: under the all-good oracle each phase completes and its
commands exited 0; under the all-fail oracle each phase raises. -/
theorem C1_phases_require_zero_exit_witness :
    ((okOracle (kijiArgs installCmd) []).exit_code = 0 ∧
     (okOracle (kijiArgs createTableCmd) []).exit_code = 0 ∧
     (okOracle (kijiArgs generateDataCmd) []).exit_code = 0 ∧
     (okOracle (kijiArgs mkdirCmd) []).exit_code = 0 ∧
     (okOracle (kijiArgs copyJsonCmd) []).exit_code = 0 ∧
     (okOracle (kijiArgs listTablesCmd) []).exit_code = 0) ∧
    ((okOracle (kijiArgs part3GatherCmd) []).exit_code = 0 ∧
     (okOracle (kijiArgs part3FsTextCmd) []).exit_code = 0) ∧
    Part1 [] failOracle = .error "AssertionError" ∧
    Part2 [] failOracle = .error "AssertionError" ∧
    Part3 [] failOracle = .error "AssertionError" ∧
    Part4 [] failOracle = .error "AssertionError" :=
  ⟨(C1_phases_require_zero_exit [] okOracle).1 (by decide),
   (C1_phases_require_zero_exit [] okOracle).2.2.1 (by decide),
   (C1_phases_require_zero_exit [] failOracle).2.2.2.2.1 (by decide),
   (C1_phases_require_zero_exit [] failOracle).2.2.2.2.2.1 (by decide),
   (C1_phases_require_zero_exit [] failOracle).2.2.2.2.2.2.1 (by decide),
   (C1_phases_require_zero_exit [] failOracle).2.2.2.2.2.2.2 (by decide)⟩

/-- C10: the output-inspection command of Part4 is character for
character the inspection command of Part3, reading
output.txt_file/part-r-00000 and not output.sequentialPlayCount; hence
a successful Part4 constrains the result of the Part3 inspection
command, and no command of the run other than the Part4 gather job
even mentions the sequentialPlayCount path. -/
theorem C10_Part4_reads_part3_output :
    part4FsTextCmd = part3FsTextCmd ∧
    pyIn "output.txt_file/part-r-00000" part4FsTextCmd = true ∧
    pyIn "output.sequentialPlayCount" part4FsTextCmd = false ∧
    pyIn "output.sequentialPlayCount" part4GatherCmd = true ∧
    (∀ env o, (Part4 env o).isOk = true →
      (o (kijiArgs part3FsTextCmd) env).exit_code = 0 ∧
      (pyFilterLines (o (kijiArgs part3FsTextCmd) env).output_lines).length
        = 3 ∧
      (ExpectAllMatch songLinePat
        (pyFilterLines (o (kijiArgs part3FsTextCmd) env).output_lines)).isOk
          = true) ∧
    (∀ c, c ∈ allCmds → pyIn "output.sequentialPlayCount" c = true →
      c = part4GatherCmd) := by
  refine ⟨rfl, by decide, by decide, by decide, fun env o h => ?_, by decide⟩
  rw [part4_isOk_iff] at h
  exact ⟨h.2.1.symm, h.2.2.1.symm, h.2.2.2⟩

/-- C10 witness: a successful Part4 under the all-good oracle, whose
inspection facts are then facts about the Part3 output path. -/
theorem C10_Part4_reads_part3_output_witness :
    (okOracle (kijiArgs part3FsTextCmd) []).exit_code = 0 ∧
    (pyFilterLines (okOracle (kijiArgs part3FsTextCmd) []).output_lines).length
      = 3 ∧
    part4GatherCmd ∈ allCmds ∧ part4GatherCmd = part4GatherCmd :=
  ⟨((C10_Part4_reads_part3_output).2.2.2.2.1 [] okOracle (by decide)).1,
   ((C10_Part4_reads_part3_output).2.2.2.2.1 [] okOracle (by decide)).2.1,
   by decide,
   (C10_Part4_reads_part3_output).2.2.2.2.2 part4GatherCmd (by decide)
     (by decide)⟩

theorem run_cleanup_mem (t : Tutorial) (w : World) (fa ea : List String)
    (g : String → List String) (o : Oracle) (w2 : World)
    (h : (runTutorial t w fa ea g o false).2 = .ok w2) :
    Event.bentoStop ∈ (runTutorial t w fa ea g o false).1 ∧
    Event.rmtree t.work_dir ∈ (runTutorial t w fa ea g o false).1 := by
  unfold runTutorial at h ⊢
  rcases hS : Setup t w fa ea g with ⟨evS, rS⟩
  try rw [hS] at h
  try rw [hS]
  cases rS with
  | error er => simp at h
  | ok so =>
    dsimp only at h ⊢
    cases hP1 : Part1 so.env o with
    | error e1 =>
      try rw [hP1] at h
      try dsimp only at h
      simp at h
    | ok u1 =>
      try dsimp only at h ⊢
      cases hP2 : Part2 so.env o with
      | error e2 =>
        try rw [hP1] at h
        try rw [hP2] at h
        try dsimp only at h
        simp at h
      | ok u2 =>
        try rw [hP1] at h ⊢
        try rw [hP2] at h ⊢
        try dsimp only at h ⊢
        cases hP3 : Part3 so.env o with
        | error e3 =>
          try rw [hP1] at h
          try rw [hP2] at h
          try rw [hP3] at h
          try dsimp only at h
          simp at h
        | ok u3 =>
          try rw [hP1] at h ⊢
          try rw [hP2] at h ⊢
          try rw [hP3] at h ⊢
          try dsimp only at h ⊢
          cases hP4 : Part4 so.env o with
          | error e4 =>
            try rw [hP1] at h
            try rw [hP2] at h
            try rw [hP3] at h
            try rw [hP4] at h
            try dsimp only at h
            simp at h
          | ok u4 =>
            try rw [hP1] at h ⊢
            try rw [hP2] at h ⊢
            try rw [hP3] at h ⊢
            try rw [hP4] at h ⊢
            try dsimp only at h ⊢
            simp [Cleanup]

theorem cleanup_removes_workdir (t : Tutorial) (wx : World) :
    pathExists (Cleanup t wx).1 t.work_dir = false := by
  simp [Cleanup, pathExists, List.mem_filter, pathUnder]

/-- C6: the phases run in the fixed order Setup, Part1, Part2, Part3,
Part4, then conditionally Cleanup: the phase trace of any run is a
prefix of that order, a completed run enters all phases (with cleanup
exactly when it is enabled), and after a failure no later phase and in
particular no cleanup is entered. -/
theorem C6_phase_order (t : Tutorial) (w : World) (fa ea : List String)
    (g : String → List String) (o : Oracle) (dc : Bool) :
    (phaseTrace (runTutorial t w fa ea g o dc).1 <+: phaseOrder) ∧
    (∀ w2, (runTutorial t w fa ea g o false).2 = .ok w2 →
      phaseTrace (runTutorial t w fa ea g o false).1 = phaseOrder) ∧
    (∀ w2, (runTutorial t w fa ea g o true).2 = .ok w2 →
      phaseTrace (runTutorial t w fa ea g o true).1 =
        [Phase.setup, Phase.part1, Phase.part2, Phase.part3, Phase.part4]) ∧
    (∀ e, (runTutorial t w fa ea g o dc).2 = .error e →
      Phase.cleanup ∉ phaseTrace (runTutorial t w fa ea g o dc).1) := by
  refine ⟨?_, fun w2 h => ?_, fun w2 h => ?_, fun e he => ?_⟩
  · rcases run_shape t w fa ea g o dc with ⟨_, hm⟩ | ⟨_, htr⟩
    · simp at hm
      rcases hm with hm | hm | hm | hm | hm <;> rw [hm] <;> decide
    · rw [htr]
      cases dc <;> decide
  · rcases run_shape t w fa ea g o false with ⟨⟨e, hee⟩, _⟩ | ⟨_, htr⟩
    · rw [h] at hee
      cases hee
    · rw [htr]
      rfl
  · rcases run_shape t w fa ea g o true with ⟨⟨e, hee⟩, _⟩ | ⟨_, htr⟩
    · rw [h] at hee
      cases hee
    · rw [htr]
      rfl
  · rcases run_shape t w fa ea g o dc with ⟨_, hm⟩ | ⟨⟨w2, hok⟩, _⟩
    · simp at hm
      rcases hm with hm | hm | hm | hm | hm <;> rw [hm] <;> decide
    · rw [he] at hok
      cases hok

/-- C6 witness: a completed run with cleanup enters all six phases in
order; cleanup is the final phase. -/
theorem C6_phase_order_witness :
    (runTutorial wTut wWorld [] [] wGlob okOracle false).2 =
      .ok { fs := [], environ := [("PATH", "/bin")], cwd := "/", now := 7 } ∧
    phaseTrace (runTutorial wTut wWorld [] [] wGlob okOracle false).1 =
      phaseOrder :=
  ⟨by decide,
   (C6_phase_order wTut wWorld [] [] wGlob okOracle false).2.1
     { fs := [], environ := [("PATH", "/bin")], cwd := "/", now := 7 }
     (by decide)⟩



theorem run_true_no_stop (t : Tutorial) (w : World) (fa ea : List String)
    (g : String → List String) (o : Oracle) :
    Event.bentoStop ∉ (runTutorial t w fa ea g o true).1 := by
  intro hmem
  rcases run_events t w fa ea g o true Event.bentoStop hmem with
    ⟨p, hp⟩ | hsetup | ⟨so, c, _, _, hcmd⟩ | ⟨hdc, _⟩
  · cases hp
  · have := mem_setup_isSetupEvent t w fa ea g _ hsetup
    simp [isSetupEvent] at this
  · cases hcmd
  · cases hdc

theorem run_true_no_rmtree (t : Tutorial) (w : World) (fa ea : List String)
    (g : String → List String) (o : Oracle) (p : String) :
    Event.rmtree p ∉ (runTutorial t w fa ea g o true).1 := by
  intro hmem
  rcases run_events t w fa ea g o true (Event.rmtree p) hmem with
    ⟨q, hq⟩ | hsetup | ⟨so, c, _, _, hcmd⟩ | ⟨hdc, _⟩
  · cases hq
  · have := mem_setup_isSetupEvent t w fa ea g _ hsetup
    simp [isSetupEvent] at this
  · cases hcmd
  · cases hdc

/-- C5: with cleanup disabled, no run stops the cluster or removes any
directory tree, and a completed run leaves the working directory on
disk; with cleanup enabled, a completed run stops the cluster and
removes the working directory; the flag reaches the runner through
Truth, so a run started by Main with the flag parsed as true never
stops the cluster. -/
theorem C5_cleanup_flag (t : Tutorial) (w : World) (fa ea : List String)
    (g : String → List String) (o : Oracle) :
    (Event.bentoStop ∉ (runTutorial t w fa ea g o true).1 ∧
     (∀ p, Event.rmtree p ∉ (runTutorial t w fa ea g o true).1)) ∧
    (∀ w2, (runTutorial t w fa ea g o true).2 = .ok w2 →
       pathExists w t.work_dir = true → pathExists w2 t.work_dir = true) ∧
    (∀ w2, (runTutorial t w fa ea g o false).2 = .ok w2 →
       Event.bentoStop ∈ (runTutorial t w fa ea g o false).1 ∧
       Event.rmtree t.work_dir ∈ (runTutorial t w fa ea g o false).1 ∧
       pathExists w2 t.work_dir = false) ∧
    (∀ argv tmp flags unparsed,
       parseKnownArgs (argv.drop 1) initFlags [] = .ok (flags, unparsed) →
       Truth flags.disable_cleanup_after_test = .ok true →
       Event.bentoStop ∉ (MainRun argv w tmp fa ea g o).1) := by
  refine ⟨⟨run_true_no_stop t w fa ea g o, run_true_no_rmtree t w fa ea g o⟩,
    fun w2 h hw => ?_, fun w2 h => ?_, fun argv tmp flags unparsed hparse htruth hmem => ?_⟩
  · obtain ⟨so, hok, htrue, _⟩ := run_result t w fa ea g o true w2 h
    rw [htrue rfl]
    have hmono := (setup_env_of_ok t w fa ea g so hok).2
    simp only [pathExists, decide_eq_true_eq] at hw ⊢
    exact hmono t.work_dir hw
  · obtain ⟨hstop, hrm⟩ := run_cleanup_mem t w fa ea g o w2 h
    obtain ⟨so, hok, _, hfalse⟩ := run_result t w fa ea g o false w2 h
    refine ⟨hstop, hrm, ?_⟩
    rw [hfalse rfl]
    exact cleanup_removes_workdir t so.world
  · unfold MainRun at hmem
    rw [hparse] at hmem
    dsimp only at hmem
    by_cases hu : unparsed.length > 0
    · rw [if_pos hu] at hmem
      simp at hmem
    · rw [if_neg hu] at hmem
      rw [htruth] at hmem
      cases hL : resolveLogLevel flags.log_level with
      | error eL =>
        rw [hL] at hmem
        simp at hmem
      | ok lv =>
        rw [hL] at hmem
        cases hwd : flags.work_dir with
        | none =>
          rw [hwd] at hmem
          dsimp only at hmem
          split at hmem
          all_goals split at hmem
          all_goals split at hmem
          all_goals try dsimp only at hmem
          all_goals repeat' (rw [List.mem_append] at hmem; rcases hmem with hmem | hmem)
          all_goals first
            | exact run_true_no_stop _ _ fa ea g o hmem
            | simp at hmem
        | some d =>
          rw [hwd] at hmem
          dsimp only at hmem
          split at hmem
          all_goals split at hmem
          all_goals split at hmem
          all_goals try dsimp only at hmem
          all_goals repeat' (rw [List.mem_append] at hmem; rcases hmem with hmem | hmem)
          all_goals first
            | exact run_true_no_stop _ _ fa ea g o hmem
            | simp at hmem







/-- C5 witness: under the all-good oracle, a disabled-cleanup run keeps
the working directory while an enabled-cleanup run stops the cluster
and removes it; a Main invocation with the flag never stops the
cluster. -/
theorem C5_cleanup_flag_witness :
    pathExists wWorld wTut.work_dir = true ∧
    (Event.bentoStop ∈ (runTutorial wTut wWorld [] [] wGlob okOracle false).1 ∧
     Event.rmtree wTut.work_dir ∈
       (runTutorial wTut wWorld [] [] wGlob okOracle false).1 ∧
     pathExists wAfterCleanup wTut.work_dir = false) ∧
    Event.bentoStop ∉ (MainRun mainArgs wWorld "t" [] [] wGlob okOracle).1 :=
  ⟨(C5_cleanup_flag wTut wWorld [] [] wGlob okOracle).2.1 wWorld (by decide)
     (by decide),
   (C5_cleanup_flag wTut wWorld [] [] wGlob okOracle).2.2.1 wAfterCleanup
     (by decide),
   (C5_cleanup_flag wTut wWorld [] [] wGlob okOracle).2.2.2 mainArgs "t"
     mainFlags [] (by decide) (by decide)⟩

/-- C7: Setup composes the command environment exactly once as the
ambient process environment overlaid with the five tutorial keys, with
the classpath joining the paths the library-directory glob returns with
a colon, leaving every other key untouched; the same mapping is the
environment of every command event of the whole run. -/
theorem C7_env_composition (t : Tutorial) (w : World) (fa ea : List String)
    (g : String → List String) :
    ∀ so, (Setup t w fa ea g).2 = .ok so →
      (so.env = setupOverlay t g ++ w.environ ∧
       envLookup so.env "MUSIC_HOME" = some (kijiMusicDirOf t) ∧
       envLookup so.env "LIBS_DIR" = some (libDirOf t) ∧
       envLookup so.env "KIJI" = some (kijiUriOf t) ∧
       envLookup so.env "KIJI_CLASSPATH" =
         some (pyStrJoin ":" (g (pyJoin (libDirOf t) "*"))) ∧
       envLookup so.env "HDFS_BASE" = some (hdfsBaseOf t) ∧
       (∀ k, k ≠ "MUSIC_HOME" → k ≠ "LIBS_DIR" → k ≠ "KIJI" →
         k ≠ "KIJI_CLASSPATH" → k ≠ "HDFS_BASE" →
         envLookup so.env k = envLookup w.environ k) ∧
       (∀ o dc c e2, Event.cmd c e2 ∈ (runTutorial t w fa ea g o dc).1 →
         e2 = so.env)) := by
  intro so h
  have henv := (setup_env_of_ok t w fa ea g so h).1
  refine ⟨henv, ?_, ?_, ?_, ?_, ?_, fun k h1 h2 h3 h4 h5 => ?_,
    fun o dc c e2 hmem => ?_⟩
  · rw [henv]
    simp [envLookup, setupOverlay, List.lookup]
  · rw [henv]
    simp [envLookup, setupOverlay, List.lookup]
  · rw [henv]
    simp [envLookup, setupOverlay, List.lookup]
  · rw [henv]
    simp [envLookup, setupOverlay, List.lookup]
  · rw [henv]
    simp [envLookup, setupOverlay, List.lookup]
  · rw [henv]
    have hb1 : (k == "MUSIC_HOME") = false := beq_eq_false_iff_ne.mpr h1
    have hb2 : (k == "LIBS_DIR") = false := beq_eq_false_iff_ne.mpr h2
    have hb3 : (k == "KIJI") = false := beq_eq_false_iff_ne.mpr h3
    have hb4 : (k == "KIJI_CLASSPATH") = false := beq_eq_false_iff_ne.mpr h4
    have hb5 : (k == "HDFS_BASE") = false := beq_eq_false_iff_ne.mpr h5
    simp [envLookup, setupOverlay, List.lookup, hb1, hb2, hb3, hb4, hb5]
  · rcases run_events t w fa ea g o dc _ hmem with
      ⟨p, hp⟩ | hsetup | ⟨so2, c2, hok2, _, heq⟩ | ⟨_, hx | hx⟩
    · cases hp
    · have := mem_setup_isSetupEvent t w fa ea g _ hsetup
      simp [isSetupEvent] at this
    · rw [h] at hok2
      cases hok2
      injection heq with hc he
    · cases hx
    · cases hx

/-- C7 witness: the composed environment on a concrete world, with the
two-jar classpath scenario and an untouched ambient key. -/
theorem C7_env_composition_witness :
    (Setup wTut wWorld [] [] wGlob).2 = .ok wSetupOut ∧
    envLookup wSetupOut.env "KIJI_CLASSPATH" =
      some ("/w/kiji-bento-1.0.0/examples/music/lib/a.jar:"
        ++ "/w/kiji-bento-1.0.0/examples/music/lib/b.jar") ∧
    envLookup wSetupOut.env "PATH" = some "/bin" := by
  refine ⟨by decide, ?_, ?_⟩
  · exact ((C7_env_composition wTut wWorld [] [] wGlob) wSetupOut
      (by decide)).2.2.2.2.1.trans (by decide)
  · exact (((C7_env_composition wTut wWorld [] [] wGlob) wSetupOut
      (by decide)).2.2.2.2.2.2.1 "PATH" (by decide) (by decide) (by decide)
      (by decide) (by decide)).trans (by decide)

theorem extractStep_events_shape (t : Tutorial) (w1 : World)
    (ea : List String) :
    ∀ e ∈ (setupExtractStep t w1 ea).2,
      e = Event.mkdirs (kijiBentoDirOf t) ∨
      e = Event.extract (archiveOf t) (kijiBentoDirOf t) 1 := by
  rcases setupExtractStep_cases t w1 ea with ⟨_, h⟩ | ⟨_, _, h⟩ | ⟨_, _, h⟩ <;>
    rw [h] <;> simp

theorem assertStep_events_shape (t : Tutorial) (g : String → List String)
    (w3 : World) :
    ∀ e ∈ (setupAssertStep t g w3).1, e = Event.bentoStart := by
  rcases setupAssertStep_cases t g w3 with ⟨_, _, _, h⟩ | ⟨h, _⟩ <;>
    rw [h] <;> simp

theorem setup_tail_events_shape (t : Tutorial) (w : World)
    (fa ea : List String) (g : String → List String) :
    ∀ e ∈ (match (setupExtractStep t (setupFetchStep t w fa).1 ea).1 with
           | .error _ => ([] : List Event)
           | .ok w3 => (setupAssertStep t g w3).1),
      e = Event.bentoStart := by
  cases h : (setupExtractStep t (setupFetchStep t w fa).1 ea).1
  · simp
  · exact assertStep_events_shape t g _

/-- C8: Setup fetches the artifact only when the cached archive is
absent, creates and extracts the distribution directory (stripping one
leading path component) only when that directory does not exist, and
aborts with an assertion failure when the distribution, cluster or
music directory is absent afterwards. -/
theorem C8_fetch_extract_conditional (t : Tutorial) (w : World)
    (fa ea : List String) (g : String → List String) :
    (pathExists w (archiveOf t) = true →
      Event.fetch ∉ (Setup t w fa ea g).1) ∧
    (pathExists w (archiveOf t) = false →
      Event.fetch ∈ (Setup t w fa ea g).1) ∧
    (pathExists w (archiveOf t) = true →
      pathExists w (kijiBentoDirOf t) = true →
      Event.mkdirs (kijiBentoDirOf t) ∉ (Setup t w fa ea g).1 ∧
      (∀ a d n, Event.extract a d n ∉ (Setup t w fa ea g).1)) ∧
    (pathExists w (archiveOf t) = true →
      pathExists w (kijiBentoDirOf t) = false →
      Event.mkdirs (kijiBentoDirOf t) ∈ (Setup t w fa ea g).1 ∧
      Event.extract (archiveOf t) (kijiBentoDirOf t) 1 ∈ (Setup t w fa ea g).1) ∧
    (pathExists w (archiveOf t) = true →
      pathExists w (kijiBentoDirOf t) = true →
      pathExists w (bentoClusterDirOf t) = false →
      ∃ e, (Setup t w fa ea g).2 = .error e) ∧
    (pathExists w (archiveOf t) = true →
      pathExists w (kijiBentoDirOf t) = true →
      pathExists w (bentoClusterDirOf t) = true →
      pathExists w (kijiMusicDirOf t) = false →
      ∃ e, (Setup t w fa ea g).2 = .error e) ∧
    (pathExists w (archiveOf t) = true →
      pathExists w (kijiBentoDirOf t) = false →
      pathExists { w with fs := ea ++ kijiBentoDirOf t :: w.fs }
        (bentoClusterDirOf t) = false →
      ∃ e, (Setup t w fa ea g).2 = .error e) := by
  have hFc := setupFetchStep_cases t w fa
  refine ⟨fun h1 => ?_, fun h1 => ?_, fun h1 h2 => ?_, fun h1 h2 => ?_,
    fun h1 h2 h3 => ?_, fun h1 h2 h3 h4 => ?_, fun h1 h2 h3 => ?_⟩
  all_goals rcases hFc with ⟨hA, hF⟩ | ⟨hA, hF⟩ <;>
    try (rw [h1] at hA; cases hA)
  -- conj 1: archive cached, no fetch event
  · rw [Setup_eq, hF]
    intro hmem
    simp at hmem
    rcases hmem with hmem | hmem
    · rcases extractStep_events_shape t w ea Event.fetch hmem with hx | hx <;>
        cases hx
    · have := setup_tail_events_shape t w fa ea g Event.fetch (by rw [hF]; exact hmem)
      cases this
  -- conj 2: archive absent, fetch happens
  · rw [Setup_eq, hF]
    simp
  -- conj 3: directory cached, no mkdirs / extract
  · rcases setupExtractStep_cases t w ea with ⟨_, hE⟩ | ⟨hB, _, hE⟩ | ⟨hB, _, hE⟩ <;>
      try (rw [h2] at hB; cases hB)
    rw [Setup_eq, hF, hE]
    constructor
    · intro hmem
      simp at hmem
      have := setup_tail_events_shape t w fa ea g _ (by rw [hF, hE]; exact hmem)
      cases this
    · intro a d n hmem
      simp at hmem
      have := setup_tail_events_shape t w fa ea g _ (by rw [hF, hE]; exact hmem)
      cases this
  -- conj 4: directory absent, mkdirs and extract happen
  · rcases setupExtractStep_cases t w ea with ⟨hB, hE⟩ | ⟨hB, hC, hE⟩ | ⟨hB, hC, hE⟩
    · rw [h2] at hB
      cases hB
    · rw [Setup_eq, hF, hE]
      simp
    · exfalso
      simp [pathExists, addPath] at hC h1
      simp [hC.2] at h1
  -- conj 5: cluster dir missing
  · rcases setupExtractStep_cases t w ea with ⟨_, hE⟩ | ⟨hB, _, hE⟩ | ⟨hB, _, hE⟩ <;>
      try (rw [h2] at hB; cases hB)
    rw [Setup_eq, hF, hE]
    dsimp only
    simp [setupAssertStep, h2, h3]
  -- conj 6: music dir missing
  · rcases setupExtractStep_cases t w ea with ⟨_, hE⟩ | ⟨hB, _, hE⟩ | ⟨hB, _, hE⟩ <;>
      try (rw [h2] at hB; cases hB)
    rw [Setup_eq, hF, hE]
    dsimp only
    simp [setupAssertStep, h2, h3, h4]
  -- conj 7: extraction happened but cluster dir still missing
  · rcases setupExtractStep_cases t w ea with ⟨hB, hE⟩ | ⟨hB, hC, hE⟩ | ⟨hB, hC, hE⟩
    · rw [h2] at hB
      cases hB
    · rw [Setup_eq, hF, hE]
      dsimp only
      have hdir : pathExists { w with fs := ea ++ kijiBentoDirOf t :: w.fs }
          (kijiBentoDirOf t) = true := by
        simp [pathExists]
      simp [setupAssertStep, hdir, h3]
    · exfalso
      simp [pathExists, addPath] at hC h1
      simp [hC.2] at h1



/-- C8 witness: no fetch when the archive is cached, a fetch when it is
absent, creation and extraction when the directory is absent, and abort
results when the cluster or music directory is missing. -/
theorem C8_fetch_extract_conditional_witness :
    Event.fetch ∉ (Setup wTut wWorld [] [] wGlob).1 ∧
    Event.fetch ∈ (Setup wTut wEmptyWorld [] [] wGlob).1 ∧
    Event.mkdirs (kijiBentoDirOf wTut) ∈
      (Setup wTut wArchiveWorld [] wExtractAdds wGlob).1 ∧
    Event.extract (archiveOf wTut) (kijiBentoDirOf wTut) 1 ∈
      (Setup wTut wArchiveWorld [] wExtractAdds wGlob).1 ∧
    (Setup wTut wNoClusterWorld [] [] wGlob).2.isOk = false ∧
    (Setup wTut wNoMusicWorld [] [] wGlob).2.isOk = false := by
  refine ⟨(C8_fetch_extract_conditional wTut wWorld [] [] wGlob).1 (by decide),
    (C8_fetch_extract_conditional wTut wEmptyWorld [] [] wGlob).2.1 (by decide),
    ((C8_fetch_extract_conditional wTut wArchiveWorld [] wExtractAdds
      wGlob).2.2.2.1 (by decide) (by decide)).1,
    ((C8_fetch_extract_conditional wTut wArchiveWorld [] wExtractAdds
      wGlob).2.2.2.1 (by decide) (by decide)).2, ?_, ?_⟩
  · rcases (C8_fetch_extract_conditional wTut wNoClusterWorld [] []
      wGlob).2.2.2.2.1 (by decide) (by decide) (by decide) with ⟨e, he⟩
    rw [he]
    rfl
  · rcases (C8_fetch_extract_conditional wTut wNoMusicWorld [] []
      wGlob).2.2.2.2.2.1 (by decide) (by decide) (by decide) (by decide) with
      ⟨e, he⟩
    rw [he]
    rfl

/-- C3: Main with an unrecognized flag prints a message and returns the
usage-error status, and Main without the required version flag likewise
prints and returns the usage-error status; in both cases no tutorial
work happens: no phase is entered, no command is spawned, nothing is
fetched and no cluster is started. -/
theorem C3_usage_exits (w : World) (tmp : String) (fa ea : List String)
    (g : String → List String) (o : Oracle) :
    (∀ argv flags unparsed,
      parseKnownArgs (argv.drop 1) initFlags [] = .ok (flags, unparsed) →
      unparsed ≠ [] →
      (MainRun argv w tmp fa ea g o).2 = .ok (some osEXUSAGE) ∧
      (∃ s, (MainRun argv w tmp fa ea g o).1 = [Event.print s]) ∧
      noTutorialWork (MainRun argv w tmp fa ea g o).1) ∧
    (∀ argv flags dcv lv,
      parseKnownArgs (argv.drop 1) initFlags [] = .ok (flags, []) →
      Truth flags.disable_cleanup_after_test = .ok dcv →
      resolveLogLevel flags.log_level = .ok lv →
      (flags.kiji_bento_version).getD "" = "" →
      (MainRun argv w tmp fa ea g o).2 = .ok (some osEXUSAGE) ∧
      Event.print
          "Specify the version of KijiBento to test with --kiji_bento_version=..."
        ∈ (MainRun argv w tmp fa ea g o).1 ∧
      noTutorialWork (MainRun argv w tmp fa ea g o).1) := by
  refine ⟨fun argv flags unparsed hparse hne => ?_,
    fun argv flags dcv lv hparse ht hl hv => ?_⟩
  · have hu : unparsed.length > 0 := by
      cases unparsed
      · exact absurd rfl hne
      · simp
    unfold MainRun
    rw [hparse]
    dsimp only
    rw [if_pos hu]
    refine ⟨rfl, ⟨_, rfl⟩, ?_⟩
    refine ⟨fun p => ?_, fun c e2 => ?_, ?_, ?_⟩ <;> simp
  · unfold MainRun
    rw [hparse]
    dsimp only
    rw [if_neg (by simp)]
    rw [ht]
    dsimp only
    rw [hl]
    dsimp only
    cases hwd : flags.work_dir
    all_goals dsimp only
    all_goals rw [if_pos hv]
    all_goals refine ⟨?_, ?_, fun p => ?_, fun c e2 => ?_, ?_, ?_⟩
    all_goals first
      | (split <;> split <;> rfl)
      | (split <;> split <;> simp)



/-- C3 witness: a concrete unknown-flag invocation and a concrete
missing-version invocation, both returning the usage-error status with
the usage message printed and no tutorial work in the trace. -/
theorem C3_usage_exits_witness :
    (MainRun ["kiji_music.py", "--bogus"] wWorld "t" [] [] wGlob okOracle).2
      = .ok (some osEXUSAGE) ∧
    noTutorialWork
      (MainRun ["kiji_music.py", "--bogus"] wWorld "t" [] [] wGlob okOracle).1 ∧
    (MainRun ["kiji_music.py"] wWorld "t" [] [] wGlob okOracle).2
      = .ok (some osEXUSAGE) ∧
    Event.print
        "Specify the version of KijiBento to test with --kiji_bento_version=..."
      ∈ (MainRun ["kiji_music.py"] wWorld "t" [] [] wGlob okOracle).1 ∧
    noTutorialWork
      (MainRun ["kiji_music.py"] wWorld "t" [] [] wGlob okOracle).1 :=
  ⟨((C3_usage_exits wWorld "t" [] [] wGlob okOracle).1
      ["kiji_music.py", "--bogus"] initFlags ["--bogus"] (by decide)
      (by simp)).1,
   ((C3_usage_exits wWorld "t" [] [] wGlob okOracle).1
      ["kiji_music.py", "--bogus"] initFlags ["--bogus"] (by decide)
      (by simp)).2.2,
   ((C3_usage_exits wWorld "t" [] [] wGlob okOracle).2
      ["kiji_music.py"] initFlags false 20 (by decide) (by decide) (by decide)
      (by decide)).1,
   ((C3_usage_exits wWorld "t" [] [] wGlob okOracle).2
      ["kiji_music.py"] initFlags false 20 (by decide) (by decide) (by decide)
      (by decide)).2.1,
   ((C3_usage_exits wWorld "t" [] [] wGlob okOracle).2
      ["kiji_music.py"] initFlags false 20 (by decide) (by decide) (by decide)
      (by decide)).2.2⟩

end KijiMusic
